import Mathlib

/-!
Verification development for the ProjectZeo authority and safety kernel.

Each Python component relevant to the checked properties is shallowly
embedded as executable Lean definitions:

* `src/audit/journal.py` (`ActionJournal`): hash-chained audit ledger with
  the two-phase INTENT/EFFECT protocol, over a concrete SHA-256 and a
  concrete canonical JSON serializer mirroring
  `json.dumps(payload, sort_keys=True, separators=(',', ':'))`.
* `src/core/mode_controller.py` (`ModeController`): the
  OBSERVER/ARMED/EXECUTING mode state machine with health/vision gates.
* `src/authority/input_tracker.py`, `src/authority/authority_policy.py`,
  `src/authority/input_arbitrator.py`: input-origin classification and
  the human/operator arbitration decision.
* `src/policy/engine.py` (`PolicyEngine`): the authorization oracle.
* `src/restoration/snapshot_types.py`, `snapshot_provider.py`,
  `restore_provider.py`: the snapshot/restore transaction.

Python timestamps (`time.time()`, `time.monotonic()`) are modelled as
explicit clock arguments; fractional timestamps in the arbitrator are
modelled as rationals. Exceptions are modelled with `Except`/`Option`;
a raise before any state mutation leaves the modelled state unchanged,
matching the source's control flow.
-/

set_option autoImplicit false
set_option maxRecDepth 1000000

namespace ProjectZeo

/-! ## SHA-256 over `Nat`, modelling `hashlib.sha256(...).hexdigest()` -/

def w32 (n : Nat) : Nat := n % 4294967296

def rotr32 (k x : Nat) : Nat := w32 ((x >>> k) ||| (x <<< (32 - k)))

def bigSigma0 (x : Nat) : Nat := rotr32 2 x ^^^ rotr32 13 x ^^^ rotr32 22 x

def bigSigma1 (x : Nat) : Nat := rotr32 6 x ^^^ rotr32 11 x ^^^ rotr32 25 x

def smallSigma0 (x : Nat) : Nat := rotr32 7 x ^^^ rotr32 18 x ^^^ (x >>> 3)

def smallSigma1 (x : Nat) : Nat := rotr32 17 x ^^^ rotr32 19 x ^^^ (x >>> 10)

def chFn (e f g : Nat) : Nat := (e &&& f) ^^^ ((e ^^^ 4294967295) &&& g)

def majFn (a b c : Nat) : Nat := (a &&& b) ^^^ (a &&& c) ^^^ (b &&& c)

def sha256K : List Nat :=
  [1116352408, 1899447441, 3049323471, 3921009573, 961987163,
   1508970993, 2453635748, 2870763221, 3624381080, 310598401,
   607225278, 1426881987, 1925078388, 2162078206, 2614888103,
   3248222580, 3835390401, 4022224774, 264347078, 604807628,
   770255983, 1249150122, 1555081692, 1996064986, 2554220882,
   2821834349, 2952996808, 3210313671, 3336571891, 3584528711,
   113926993, 338241895, 666307205, 773529912, 1294757372,
   1396182291, 1695183700, 1986661051, 2177026350, 2456956037,
   2730485921, 2820302411, 3259730800, 3345764771, 3516065817,
   3600352804, 4094571909, 275423344, 430227734, 506948616,
   659060556, 883997877, 958139571, 1322822218, 1537002063,
   1747873779, 1955562222, 2024104815, 2227730452, 2361852424,
   2428436474, 2756734187, 3204031479, 3329325298]

def sha256H0 : List Nat :=
  [1779033703, 3144134277, 1013904242, 2773480762, 1359893119,
   2600822924, 528734635, 1541459225]

/-- Big-endian byte decomposition of `n` into `k` bytes. -/
def bytesBE (k n : Nat) : List Nat :=
  (List.range k).map (fun i => (n >>> (8 * (k - 1 - i))) % 256)

/-- SHA-256 message padding of a byte string. -/
def sha256pad (msg : List Nat) : List Nat :=
  let z := (119 - msg.length % 64) % 64
  msg ++ [0x80] ++ List.replicate z 0 ++ bytesBE 8 (msg.length * 8)

def toBlocksAux : Nat → List Nat → List (List Nat)
  | 0, _ => []
  | k + 1, l => l.take 64 :: toBlocksAux k (l.drop 64)

def toBlocks (l : List Nat) : List (List Nat) := toBlocksAux (l.length / 64) l

/-- The sixteen 32-bit big-endian words of a 64-byte block. -/
def blockWords (b : List Nat) : List Nat :=
  (List.range 16).map (fun i =>
    (b.getD (4 * i) 0) <<< 24 ||| (b.getD (4 * i + 1) 0) <<< 16 |||
    (b.getD (4 * i + 2) 0) <<< 8 ||| b.getD (4 * i + 3) 0)

/-- Extend the 16 message words to the 64-entry schedule. -/
def sha256schedule (ws : List Nat) : List Nat :=
  (List.range 48).foldl
    (fun acc _ =>
      let n := acc.length
      acc ++ [w32 (smallSigma1 (acc.getD (n - 2) 0) + acc.getD (n - 7) 0 +
                   smallSigma0 (acc.getD (n - 15) 0) + acc.getD (n - 16) 0)])
    ws

def sha256compress (h : List Nat) (ws : List Nat) : List Nat :=
  let sched := sha256schedule ws
  let final := (List.range 64).foldl
    (fun s i =>
      match s with
      | [a, b, c, d, e, f, g, hh] =>
        let t1 := w32 (hh + bigSigma1 e + chFn e f g + sha256K.getD i 0 + sched.getD i 0)
        let t2 := w32 (bigSigma0 a + majFn a b c)
        [w32 (t1 + t2), a, b, c, w32 (d + t1), e, f, g]
      | other => other)
    h
  (h.zip final).map (fun p => w32 (p.1 + p.2))

/-- SHA-256 of a byte string, as the eight 32-bit state words. -/
def sha256words (msg : List Nat) : List Nat :=
  (toBlocks (sha256pad msg)).foldl (fun h b => sha256compress h (blockWords b)) sha256H0

def hexDigit (n : Nat) : Char := if n < 10 then Char.ofNat (48 + n) else Char.ofNat (87 + n)

def word32hex (n : Nat) : String :=
  String.mk ((List.range 8).map (fun i => hexDigit ((n >>> (4 * (7 - i))) % 16)))

def sha256hexBytes (msg : List Nat) : String :=
  String.join ((sha256words msg).map word32hex)

/-- UTF-8 encoding of a character, as bytes. -/
def utf8Char (c : Char) : List Nat :=
  let n := c.toNat
  if n < 0x80 then [n]
  else if n < 0x800 then [0xc0 ||| (n >>> 6), 0x80 ||| (n &&& 0x3f)]
  else if n < 0x10000 then
    [0xe0 ||| (n >>> 12), 0x80 ||| ((n >>> 6) &&& 0x3f), 0x80 ||| (n &&& 0x3f)]
  else
    [0xf0 ||| (n >>> 18), 0x80 ||| ((n >>> 12) &&& 0x3f),
     0x80 ||| ((n >>> 6) &&& 0x3f), 0x80 ||| (n &&& 0x3f)]

def utf8Bytes (s : String) : List Nat := (s.toList.map utf8Char).flatten

/-- Model of `hashlib.sha256(s.encode()).hexdigest()`. -/
def sha256hex (s : String) : String := sha256hexBytes (utf8Bytes s)

/-! ## Canonical JSON, modelling `json.dumps(x, sort_keys=True, separators=(',', ':'))` -/

/-- JSON values as they occur in ledger entries. Python floats used for
timestamps are modelled as integers. -/
inductive Json where
  | null
  | bool (b : Bool)
  | int (n : Int)
  | str (s : String)
  | arr (xs : List Json)
  | obj (kvs : List (String × Json))
deriving Repr

def hex4 (n : Nat) : String :=
  String.mk [hexDigit ((n >>> 12) % 16), hexDigit ((n >>> 8) % 16),
             hexDigit ((n >>> 4) % 16), hexDigit (n % 16)]

/-- Escape of one character inside a JSON string literal, following
`json.dumps` with its default `ensure_ascii=True`. -/
def jsonEscapeChar (c : Char) : String :=
  if c = '"' then "\\\""
  else if c = '\\' then "\\\\"
  else if c = '\n' then "\\n"
  else if c = '\t' then "\\t"
  else if c = '\r' then "\\r"
  else if c = '\x08' then "\\b"
  else if c = '\x0c' then "\\f"
  else if c.toNat < 0x20 then "\\u" ++ hex4 c.toNat
  else if c.toNat < 0x7f then String.singleton c
  else if c.toNat < 0x10000 then "\\u" ++ hex4 c.toNat
  else
    let m := c.toNat - 0x10000
    "\\u" ++ hex4 (0xd800 + (m >>> 10)) ++ "\\u" ++ hex4 (0xdc00 + (m &&& 0x3ff))

def jsonQuote (s : String) : String :=
  "\"" ++ String.join (s.toList.map jsonEscapeChar) ++ "\""

/-- Python string `<`: lexicographic comparison by code point. -/
def charListLt : List Char → List Char → Bool
  | [], [] => false
  | [], _ :: _ => true
  | _ :: _, [] => false
  | a :: as, b :: bs =>
    if a.toNat < b.toNat then true
    else if b.toNat < a.toNat then false
    else charListLt as bs

def strLt (a b : String) : Bool := charListLt a.toList b.toList

/-- Stable insertion of a key/value pair by key order (Python's `sorted`
orders string keys by code point). -/
def insertByKey (p : String × Json) : List (String × Json) → List (String × Json)
  | [] => [p]
  | q :: rest => if strLt p.1 q.1 then p :: q :: rest else q :: insertByKey p rest

def sortByKey (l : List (String × Json)) : List (String × Json) :=
  l.foldr insertByKey []

def joinComma (l : List String) : String :=
  match l with
  | [] => ""
  | x :: rest => rest.foldl (fun acc y => acc ++ "," ++ y) x

/-- Fuel-indexed serializer; the fuel only bounds the nesting depth and is
instantiated generously in `Json.dumps`. -/
def Json.dumpsF : Nat → Json → String
  | _, .null => "null"
  | _, .bool true => "true"
  | _, .bool false => "false"
  | _, .int n => toString n
  | _, .str s => jsonQuote s
  | 0, .arr _ => ""
  | 0, .obj _ => ""
  | fuel + 1, .arr xs => "[" ++ joinComma (xs.map (Json.dumpsF fuel)) ++ "]"
  | fuel + 1, .obj kvs =>
    "\x7b" ++
      joinComma ((sortByKey kvs).map (fun p => jsonQuote p.1 ++ ":" ++ Json.dumpsF fuel p.2)) ++
    "\x7d"

/-- Canonical serialization: `json.dumps(x, sort_keys=True, separators=(',', ':'))`.
The fuel bounds only the nesting depth; CPython's serializer is itself
recursion-limited near depth 1000, so the bound below is far beyond any
value the source can serialize. -/
def Json.dumps (j : Json) : String := Json.dumpsF 18446744073709551615 j

/-! ## `ActionJournal` (src/audit/journal.py) -/

/-- One ledger entry is a Python dict: an insertion-ordered association
list from string keys to JSON values. -/
abbrev Entry := List (String × Json)

def Entry.get (e : Entry) (k : String) : Option Json :=
  (e.find? (fun p => p.1 == k)).map (fun p => p.2)

/-- Python `d[k] = v`: replace the value at an existing key in place,
otherwise append at the end. -/
def Entry.set (e : Entry) (k : String) (v : Json) : Entry :=
  match e with
  | [] => [(k, v)]
  | (k', v') :: rest => if k' == k then (k, v) :: rest else (k', v') :: Entry.set rest k v

def Entry.erase (e : Entry) (k : String) : Entry :=
  match e with
  | [] => []
  | (k', v') :: rest => if k' == k then rest else (k', v') :: Entry.erase rest k

def Entry.getStr (e : Entry) (k : String) : Option String :=
  match Entry.get e k with
  | some (.str s) => some s
  | _ => none

/-- Python `x == "lit"` on a value read from a dict (absent key compares
unequal). -/
def isStrVal : Option Json → String → Bool
  | some (.str t), s => t == s
  | _, _ => false

/-- The 64-zero-character genesis sentinel `"0" * 64`. -/
def zeros64 : String := String.mk (List.replicate 64 '0')

/-- Mutable state of `ActionJournal`; the append-only file is modelled by
the `log` list of recorded entries. -/
structure JState where
  last_hash : String
  last_intent_hash : Option String
  log : List Entry
deriving Repr

/-- `ActionJournal._canonical_hash`: SHA-256 over the deterministic JSON
representation. -/
def canonicalHash (e : Entry) : String := sha256hex (Json.dumps (.obj e))

/-- `ActionJournal.record`. Integrity violations raise (`Except.error`)
before any state mutation. -/
def ActionJournal.record (st : JState) (entry : Entry) : Except String JState :=
  let phase := Entry.get entry "phase"
  let etype := Entry.get entry "type"
  if (isStrVal phase "INTENT" || isStrVal etype "SESSION_SEAL") && st.last_intent_hash.isSome then
    .error "AUDIT_INTEGRITY_FAILURE: Unresolved INTENT without EFFECT."
  else if isStrVal phase "EFFECT" && st.last_intent_hash.isNone then
    .error "AUDIT_INTEGRITY_FAILURE: EFFECT recorded without active INTENT."
  else
    let step : Entry × Option String :=
      if isStrVal phase "EFFECT" then
        (Entry.set entry "intent_ref" (.str (st.last_intent_hash.getD "")), none)
      else (entry, st.last_intent_hash)
    let entry1 := step.1
    let entry2 := Entry.set entry1 "prev_hash" (.str st.last_hash)
    let currentHash := canonicalHash entry2
    let entry3 := Entry.set entry2 "hash" (.str currentHash)
    let lih := if isStrVal phase "INTENT" then some currentHash else step.2
    .ok { last_hash := currentHash, last_intent_hash := lih, log := st.log ++ [entry3] }

/-- `ActionJournal.seal`. -/
def ActionJournal.seal (st : JState) (t : Int) (reason : String) : Except String JState :=
  ActionJournal.record st
    [("type", .str "SESSION_SEAL"), ("reason", .str reason), ("timestamp", .int t)]

/-- State before `_initialize_session` runs. -/
def JState.fresh : JState :=
  { last_hash := zeros64, last_intent_hash := none, log := [] }

/-- `ActionJournal.__init__` followed by `_initialize_session`: the fresh
chain plus the SESSION_START genesis record at wall time `t`. -/
def ActionJournal.init (t : Int) : Except String JState :=
  ActionJournal.record JState.fresh [("type", .str "SESSION_START"), ("timestamp", .int t)]

/-- A sequence of `record` calls, stopping at the first integrity failure. -/
def ActionJournal.recordAll (st : JState) (es : List Entry) : Except String JState :=
  match es with
  | [] => .ok st
  | e :: rest =>
    match ActionJournal.record st e with
    | .ok st' => ActionJournal.recordAll st' rest
    | .error m => .error m

/-- The hash-chain well-formedness of a log, re-checked from a given
predecessor hash: every entry's `prev_hash` links to its predecessor and
every entry's `hash` is the SHA-256 of its own canonical serialization
without the `hash` field. -/
def chainOkB : String → List Entry → Bool
  | _, [] => true
  | prev, e :: rest =>
    (Entry.getStr e "prev_hash" == some prev) &&
    (match Entry.getStr e "hash" with
     | some h => (h == sha256hex (Json.dumps (.obj (Entry.erase e "hash")))) && chainOkB h rest
     | none => false)

/-- The hash of the last entry of a log (the chain head to link the next
entry to), starting from predecessor hash `prev`. -/
def chainLast (prev : String) : List Entry → String
  | [] => prev
  | e :: rest => chainLast ((Entry.getStr e "hash").getD "") rest

/-! ## `ModeController` (src/core/mode_controller.py) -/

/-- `SystemMode` enum. -/
inductive SystemMode where
  | OBSERVER
  | ARMED
  | EXECUTING
deriving DecidableEq, Repr

/-- The distinct raise sites of `request_transition`. In the source,
`emptyReason` and `illegalTransition` raise `ModeTransitionError` while
`observerUnhealthy` and `visionUnavailable` raise its subclass
`VisionUnavailableError`. -/
inductive MCError where
  | emptyReason
  | illegalTransition
  | observerUnhealthy
  | visionUnavailable
deriving DecidableEq, Repr

/-- One record of `_transition_history`. -/
structure TransitionRecord where
  ts : Nat
  from_mode : SystemMode
  to_mode : SystemMode
  reason : String
  forced : Bool
  vision_ok : Bool
  observer_healthy : Bool
deriving DecidableEq, Repr

/-- Mutable state of `ModeController`; wall-clock readings are passed in
explicitly as `Nat` arguments. -/
structure MCState where
  mode : SystemMode
  mode_entered_at : Nat
  last_transition_reason : Option String
  vision_ok : Bool
  input_locked : Bool
  observer_healthy : Bool
  vision_failed_permanently : Bool
  failure_reason : Option String
  history : List TransitionRecord
deriving DecidableEq, Repr

def MAX_TRANSITION_HISTORY : Nat := 2000

/-- `ModeController.__init__` at wall time `t`. -/
def MCState.init (t : Nat) : MCState :=
  { mode := .OBSERVER
    mode_entered_at := t
    last_transition_reason := none
    vision_ok := false
    input_locked := false
    observer_healthy := true
    vision_failed_permanently := false
    failure_reason := none
    history := [] }

/-- `ModeController._allowed_transitions`. -/
def allowedTransitions : SystemMode → List SystemMode
  | .OBSERVER => [.ARMED]
  | .ARMED => [.EXECUTING, .OBSERVER]
  | .EXECUTING => [.OBSERVER]

/-- `ModeController._record_transition`: append to the bounded deque
(`maxlen = 2000`). -/
def recordTransition (t : Nat) (fromMode toMode : SystemMode) (reason : String)
    (forced : Bool) (st : MCState) : MCState :=
  let rec_ : TransitionRecord :=
    { ts := t, from_mode := fromMode, to_mode := toMode, reason := reason, forced := forced,
      vision_ok := st.vision_ok, observer_healthy := st.observer_healthy }
  let h := st.history ++ [rec_]
  { st with history := if h.length > MAX_TRANSITION_HISTORY then h.drop (h.length - MAX_TRANSITION_HISTORY) else h }

/-- `ModeController._force_abort`. -/
def forceAbort (t : Nat) (st : MCState) (reason : String) : MCState :=
  let prev := st.mode
  let st := { st with
    mode := .OBSERVER
    mode_entered_at := t
    last_transition_reason := some reason
    input_locked := false }
  recordTransition t prev .OBSERVER reason true st

/-- `ModeController.update_observer_health`. -/
def updateObserverHealth (t : Nat) (st : MCState) (healthy : Bool)
    (reason : Option String) : MCState :=
  if !healthy && st.observer_healthy then
    let st := { st with
      observer_healthy := false
      vision_failed_permanently := true
      failure_reason := some (reason.getD "observer reported blindness") }
    if st.mode = .EXECUTING then forceAbort t st "Observer health lost mid-execution" else st
  else st

/-- `ModeController.update_vision_status`. -/
def updateVisionStatus (st : MCState) (ok : Bool) : MCState :=
  let st := if !ok then { st with vision_failed_permanently := true } else st
  { st with vision_ok := ok && !st.vision_failed_permanently }

/-- `ModeController.lock_input`. -/
def lockInput (st : MCState) : MCState := { st with input_locked := true }

/-- `ModeController.release_input`. -/
def releaseInput (st : MCState) : MCState := { st with input_locked := false }

/-- Python `str.strip()`: drop leading and trailing whitespace. -/
def pyStrip (s : String) : String :=
  String.mk (((s.toList.dropWhile Char.isWhitespace).reverse.dropWhile Char.isWhitespace).reverse)

/-- `ModeController.request_transition`. All raise sites precede every
mutation, so a raising call returns the state unchanged together with the
error. The guard `not reason or not reason.strip()` is equivalent to
`reason.strip() == ""`. -/
def requestTransition (t : Nat) (st : MCState) (target : SystemMode) (reason : String)
    (force : Bool) : MCState × Option MCError :=
  if pyStrip reason = "" then (st, some .emptyReason)
  else
    let current := st.mode
    if target = current then (st, none)
    else if !force && !(allowedTransitions current).contains target then
      (st, some .illegalTransition)
    else if !st.observer_healthy then (st, some .observerUnhealthy)
    else if target = .EXECUTING && !st.vision_ok then (st, some .visionUnavailable)
    else
      let st := if target = .EXECUTING then lockInput st else st
      let st := { st with
        mode := target
        mode_entered_at := t
        last_transition_reason := some reason }
      (recordTransition t current target reason force st, none)

/-- `ModeController.arm`. -/
def MCState.arm (t : Nat) (st : MCState) (reason : String) : MCState × Option MCError :=
  requestTransition t st .ARMED reason false

/-- `ModeController.execute`. -/
def MCState.execute (t : Nat) (st : MCState) (reason : String) : MCState × Option MCError :=
  requestTransition t st .EXECUTING reason false

/-- `ModeController.disarm`: the forced transition happens first; on its
raise `release_input` is never reached. -/
def MCState.disarm (t : Nat) (st : MCState) (reason : String) : MCState × Option MCError :=
  match requestTransition t st .OBSERVER reason true with
  | (st', none) => (releaseInput st', none)
  | (st', some e) => (st', some e)

/-- The public mutating operations of `ModeController`, for reasoning
about arbitrary call sequences. -/
inductive MCOp where
  | updateObserverHealth (healthy : Bool) (reason : Option String)
  | updateVisionStatus (ok : Bool)
  | lockInput
  | releaseInput
  | requestTransition (target : SystemMode) (reason : String) (force : Bool)
  | arm (reason : String)
  | execute (reason : String)
  | disarm (reason : String)
deriving DecidableEq, Repr

/-- Run one operation at wall time `t`; an exception propagates to the
caller with the controller state unchanged. -/
def MCState.run (t : Nat) (st : MCState) : MCOp → MCState × Option MCError
  | .updateObserverHealth h r => (updateObserverHealth t st h r, none)
  | .updateVisionStatus ok => (updateVisionStatus st ok, none)
  | .lockInput => (lockInput st, none)
  | .releaseInput => (releaseInput st, none)
  | .requestTransition target reason force => requestTransition t st target reason force
  | .arm reason => st.arm t reason
  | .execute reason => st.execute t reason
  | .disarm reason => st.disarm t reason

/-- Run a timed sequence of operations, keeping the state a raising call
leaves behind. -/
def MCState.runSeq (st : MCState) : List (Nat × MCOp) → MCState
  | [] => st
  | (t, op) :: rest => ((st.run t op).1).runSeq rest

/-! ## `InputTracker`, `AuthorityPolicy`, `InputArbitrator`
(src/authority/input_tracker.py, authority_policy.py, input_arbitrator.py) -/

/-- `InputSource` constants. -/
inductive InputSource where
  | SOC
  | HUMAN
deriving DecidableEq, Repr

/-- Members of the `AuthorityDecision` enum as defined in
`src/authority/authority_policy.py`. The enum defines only these three
members; no `RELEASE` member exists. -/
inductive AuthorityDecision where
  | CONTINUE
  | YIELD
  | ABORT
deriving DecidableEq, Repr

/-- Python attribute lookup `AuthorityDecision.<name>` on the enum class:
`some` for a defined member, `none` (an `AttributeError` at runtime) for
any other name. -/
def AuthorityDecision.memberNamed : String → Option AuthorityDecision
  | "CONTINUE" => some .CONTINUE
  | "YIELD" => some .YIELD
  | "ABORT" => some .ABORT
  | _ => none

/-- `AuthorityPolicy.decide`. -/
def AuthorityPolicy.decide (human_intervened high_risk soc_confident : Bool) :
    AuthorityDecision :=
  if !human_intervened then .CONTINUE
  else if high_risk then .ABORT
  else if !soc_confident then .YIELD
  else .YIELD

/-- `InputTracker.classify_input`; timestamps are rationals standing for
the float seconds of `time.monotonic()`. -/
def InputTracker.classifyInput (last_soc_action_ts : Option ℚ) (event_ts : ℚ) :
    InputSource :=
  match last_soc_action_ts with
  | none => .HUMAN
  | some t => if event_ts - t > (2 : ℚ) / 10 then .HUMAN else .SOC

/-- Shared mutable state of `InputArbitrator` (with its `InputTracker`). -/
structure ArbState where
  tracker_last_soc_ts : Option ℚ
  last_soc_action_ts : Option ℚ
  forced_release : Bool
deriving DecidableEq, Repr

/-- The runtime error a lookup of an undefined enum member raises. -/
inductive PyRuntimeError where
  | attributeError
deriving DecidableEq, Repr

/-- `InputArbitrator.evaluate`. The forced-release branch executes
`return AuthorityDecision.RELEASE`; the enum has no `RELEASE` member, so
the attribute lookup itself is modelled and fails there. -/
def InputArbitrator.evaluate (st : ArbState) (input_event_ts : ℚ)
    (high_risk soc_confident : Bool) : Except PyRuntimeError AuthorityDecision :=
  let source := InputTracker.classifyInput st.tracker_last_soc_ts input_event_ts
  if st.forced_release then
    match AuthorityDecision.memberNamed "RELEASE" with
    | some d => .ok d
    | none => .error .attributeError
  else if source = .HUMAN then
    .ok (AuthorityPolicy.decide true high_risk soc_confident)
  else .ok .CONTINUE

/-- `InputArbitrator.emergency_reclaim`. -/
def ArbState.emergencyReclaim (st : ArbState) : ArbState :=
  { st with forced_release := true }

/-- `InputArbitrator.clear_emergency_reclaim`. -/
def ArbState.clearEmergencyReclaim (st : ArbState) : ArbState :=
  { st with forced_release := false }

/-! ## `PolicyEngine` (src/policy/engine.py) -/

/-- Decision constants of `PolicyEngine` (plain strings in the source). -/
def PolicyEngine.ALLOW : String := "ALLOW"

def PolicyEngine.DENY : String := "DENY"

def PolicyEngine.REQUIRE_HUMAN_CONFIRMATION : String := "REQUIRE_HUMAN_CONFIRMATION"

def PolicyEngine.denied_roles : List String :=
  ["terminal", "password text", "alert", "dialog"]

/-- The high-risk label patterns, each a case-insensitive substring
pattern (`re.compile(word, re.IGNORECASE)`). -/
def PolicyEngine.high_risk_name_patterns : List String :=
  ["delete", "remove", "format", "sudo", "erase"]

def PolicyEngine.allowed_apps : List String :=
  ["google-chrome", "firefox", "libreoffice", "gedit"]

/-- Does `pat` occur as a contiguous substring of `l`? -/
def subOccurs (pat : List Char) : List Char → Bool
  | [] => pat.isEmpty
  | c :: rest => pat.isPrefixOf (c :: rest) || subOccurs pat rest

/-- Python `pat in s` / `re.search` for a plain-word pattern. -/
def strHasSub (s pat : String) : Bool := subOccurs pat.toList s.toList

/-- Python `value or default` on an optional string (both `None` and the
empty string are falsy). -/
def pyOrDefault (v : Option String) (d : String) : String :=
  match v with
  | some s => if s = "" then d else s
  | none => d

/-- Python `str.lower()` on the ASCII range. -/
def pyLowerChar (c : Char) : Char :=
  if 65 ≤ c.toNat ∧ c.toNat ≤ 90 then Char.ofNat (c.toNat + 32) else c

def pyLower (s : String) : String := String.mk (s.toList.map pyLowerChar)

/-- The accessibility-node object handed to `validate`: each accessor can
raise (backend exception), modelled as `Except`. -/
structure PyApp where
  name : Option String
deriving DecidableEq, Repr

structure PolicyNode where
  getRoleName : Except Unit (Option String)
  name : Except Unit (Option String)
  getApplication : Except Unit (Option PyApp)
deriving Repr

/-- The owning-application name:
`app_obj.name.lower() if app_obj and app_obj.name else "unknown"`. -/
def appNameOf (appObj : Option PyApp) : String :=
  match appObj with
  | some a =>
    match a.name with
    | some an => if an = "" then "unknown" else pyLower an
    | none => "unknown"
  | none => "unknown"

/-- `PolicyEngine.validate`: the `(decision, reason)` pair. The
surrounding `try`/`except Exception` maps any raising accessor to the
fail-closed deny; the interpolated exception text in its reason is
abstracted to the fixed prefix the source uses. -/
def PolicyEngine.validate (node : PolicyNode) (action : String) : String × Option String :=
  match node.getRoleName, node.name, node.getApplication with
  | .ok roleRaw, .ok nameRaw, .ok appObj =>
    let role := pyLower (pyOrDefault roleRaw "unknown")
    let nm := pyLower (pyOrDefault nameRaw "")
    let app := appNameOf appObj
    if app = "unknown" then
      (PolicyEngine.DENY, some "Application identity unavailable")
    else if !(PolicyEngine.allowed_apps.contains app) then
      (PolicyEngine.DENY, some ("Unauthorized application: " ++ app))
    else if PolicyEngine.denied_roles.contains role then
      (PolicyEngine.DENY, some ("Forbidden role: " ++ role))
    else if (action == "type") && !(strHasSub role "text") && !(strHasSub role "entry") then
      (PolicyEngine.DENY, some ("Semantic violation: type into role " ++ role))
    else
      match PolicyEngine.high_risk_name_patterns.find? (fun pat => strHasSub nm pat) with
      | some pat => (PolicyEngine.REQUIRE_HUMAN_CONFIRMATION,
          some ("High-risk label detected: " ++ pat))
      | none => (PolicyEngine.ALLOW, none)
  | _, _, _ => (PolicyEngine.DENY, some "Policy internal error")

/-! ## Snapshot types (src/restoration/snapshot_types.py) -/

structure CursorState where
  x : Int
  y : Int
deriving DecidableEq, Repr

/-- `CursorState.validate` as a predicate (`true` iff it does not raise). -/
def CursorState.validateB (c : CursorState) : Bool := !(c.x < 0 || c.y < 0)

structure FocusState where
  window_id : String
  title : Option String
deriving DecidableEq, Repr

/-- `FocusState.validate` (`not self.window_id` is the empty string). -/
def FocusState.validateB (f : FocusState) : Bool := !(f.window_id == "")

structure ApplicationState where
  process_name : String
  pid : Option Int
deriving DecidableEq, Repr

/-- `ApplicationState.validate`. -/
def ApplicationState.validateB (a : ApplicationState) : Bool :=
  !(a.process_name == "") &&
  (match a.pid with
   | some p => !(p ≤ 0)
   | none => true)

/-- Open metadata map of the snapshot. Extended best-effort data is
optional exactly as in `SnapshotProvider`. -/
structure SnapMetadata where
  schema_version : String
  snapshot_id : String
  frame_ts : Option Int
  screen_text_hash : Option String
  screenpipe_captured_at : Int
  window_geometry : Option (Int × Int × Int × Int)
  window_z_order : Option Int
  browser_state : Option (String × Int)
  media_playback_position : Option Int
  os_signature : Option String
deriving DecidableEq, Repr

structure RestorationSnapshot where
  snapshot_id : String
  captured_at : Int
  cursor : CursorState
  focus : FocusState
  application : ApplicationState
  execution_mode : String
  metadata : SnapMetadata
deriving DecidableEq, Repr

/-- `RestorationSnapshot.validate` (`true` iff no invariant raises). -/
def RestorationSnapshot.validateB (s : RestorationSnapshot) : Bool :=
  !(s.snapshot_id == "") && !(s.captured_at ≤ 0) && (s.execution_mode == "OBSERVER") &&
  s.cursor.validateB && s.focus.validateB && s.application.validateB

/-- `RestorationSnapshot.create`: the `uuid.uuid4()` string and
`time.time()` reading are explicit inputs; construction validates
atomically and raises on any violation. -/
def RestorationSnapshot.create (uuid : String) (now : Int) (cursor : CursorState)
    (focus : FocusState) (application : ApplicationState) (execution_mode : String)
    (metadata : SnapMetadata) : Except String RestorationSnapshot :=
  let s : RestorationSnapshot :=
    { snapshot_id := uuid, captured_at := now, cursor := cursor, focus := focus,
      application := application, execution_mode := execution_mode, metadata := metadata }
  if s.validateB then .ok s else .error "snapshot invariant violation"

/-! ## `SnapshotProvider` (src/restoration/snapshot_provider.py) -/

/-- Result of `ScreenpipeAdapter.read()`. -/
structure ScreenState where
  available : Bool
  blind : Bool
  frame_ts : Option Int
  screen_text_hash : Option String
deriving DecidableEq, Repr

/-- Python `str(x)` of an optional dict value (`str(None) = "None"`). -/
def pyStr (v : Option String) : String :=
  match v with
  | some s => s
  | none => "None"

structure FocusedWindowDict where
  winId : Option String
  title : Option String
deriving DecidableEq, Repr

structure ActiveAppDict where
  process_name : Option String
  pid : Option Int
deriving DecidableEq, Repr

/-- The OS backend as consumed by `capture_pre_hijack_snapshot`: each
mandatory getter may raise; an optional capability is `none` when the
backend lacks the attribute. -/
structure OSSnapshotBackend where
  get_execution_mode : String
  get_cursor_position : Except Unit (Int × Int)
  get_focused_window : Except Unit FocusedWindowDict
  get_active_application : Except Unit ActiveAppDict
  get_window_geometry : Option (Except Unit (Int × Int × Int × Int))
  get_window_z_order : Option (Except Unit Int)
  get_browser_state : Option (Except Unit (String × Int))
  get_media_playback_position : Option (Except Unit Int)
  get_os_signature : Option (Except Unit String)
deriving Repr

/-- A best-effort probe: absent capability or a raising call both yield
`None` (the surrounding `try`/`except: pass`). -/
def bestEffort {α : Type} (probe : Option (Except Unit α)) : Option α :=
  match probe with
  | some (.ok v) => some v
  | _ => none

/-- `SnapshotProvider.capture_pre_hijack_snapshot`. The generated
snapshot id (`uuid.uuid4()`), the metadata id (`_generate_snapshot_id`)
and the wall clock are explicit inputs. -/
def SnapshotProvider.capture (os : OSSnapshotBackend) (screen : ScreenState)
    (metaId uuid : String) (now : Int) : Except String RestorationSnapshot :=
  let execution_mode := os.get_execution_mode
  if execution_mode ≠ "OBSERVER" then
    .error "Snapshot capture attempted outside OBSERVER mode"
  else if !screen.available || screen.blind then
    .error "Screenpipe vision unavailable or blind during snapshot capture"
  else
    match os.get_cursor_position, os.get_focused_window, os.get_active_application with
    | .ok (cx, cy), .ok fw, .ok app =>
      let cursor_state : CursorState := { x := cx, y := cy }
      let focus_state : FocusState := { window_id := pyStr fw.winId, title := fw.title }
      let application_state : ApplicationState :=
        { process_name := pyStr app.process_name, pid := app.pid }
      let metadata : SnapMetadata :=
        { schema_version := "1.1"
          snapshot_id := metaId
          frame_ts := screen.frame_ts
          screen_text_hash := screen.screen_text_hash
          screenpipe_captured_at := now
          window_geometry := bestEffort os.get_window_geometry
          window_z_order := bestEffort os.get_window_z_order
          browser_state := bestEffort os.get_browser_state
          media_playback_position := bestEffort os.get_media_playback_position
          os_signature := bestEffort os.get_os_signature }
      RestorationSnapshot.create uuid now cursor_state focus_state application_state
        execution_mode metadata
    | _, _, _ => .error "Failed to retrieve OS state"

/-! ## `RestoreProvider` (src/restoration/restore_provider.py) -/

/-- The raise sites of `restore` (all `RestorationError` in the source). -/
inductive RestorationError where
  | cursorRestoreFailed
  | applicationFocusFailed
  | executionModeResetFailed
  | postRestoreModeInvalid
  | postRestoreCursorUnreadable
  | postRestoreCursorMismatch
deriving DecidableEq, Repr

/-- The OS backend as consumed by `restore`: one behavior per primitive
call made during a single run. -/
structure OSRestoreBackend where
  has_force_release_all : Bool
  force_release_all : Except Unit Unit
  stop_automated_input : Except Unit Unit
  enable_user_input : Except Unit Unit
  set_window_geometry : Option (Except Unit Unit)
  set_window_z_order : Option (Except Unit Unit)
  restore_browser_state : Option (Except Unit Unit)
  set_media_playback_position : Option (Except Unit Unit)
  set_cursor_position : Except Unit Unit
  focus_window : Except Unit Bool
  activate_application : Except Unit Bool
  set_execution_mode : Except Unit Unit
  get_execution_mode : String
  get_cursor_position : Except Unit (Int × Int)
  has_get_focused_window : Bool
  get_focused_window : Except Unit (Option String)
deriving Repr

/-- `RestoreProvider._verify_post_restore` (the settle delay is pure
time). The trailing focused-window comparison sits inside a
`try`/`except Exception: pass`, so even its own raise is swallowed. -/
def verifyPostRestore (os : OSRestoreBackend) (snap : RestorationSnapshot) :
    Except RestorationError Unit := do
  if os.get_execution_mode ≠ "OBSERVER" then
    throw .postRestoreModeInvalid
  match os.get_cursor_position with
  | .error _ => throw .postRestoreCursorUnreadable
  | .ok (x, y) =>
    if (x, y) ≠ (snap.cursor.x, snap.cursor.y) then
      throw .postRestoreCursorMismatch
    else
      pure ()

/-- The trace of backend primitives `restore` invokes, for frame
reasoning; mirrors the call order of the source. -/
def restoreTracePrefix (os : OSRestoreBackend) (snap : RestorationSnapshot) : List String :=
  (if os.has_force_release_all then ["force_release_all"] else []) ++
  ["stop_automated_input", "enable_user_input"] ++
  (if snap.metadata.window_geometry.isSome && os.set_window_geometry.isSome then
    ["set_window_geometry"] else []) ++
  (if snap.metadata.window_z_order.isSome && os.set_window_z_order.isSome then
    ["set_window_z_order"] else []) ++
  (if snap.metadata.browser_state.isSome && os.restore_browser_state.isSome then
    ["restore_browser_state"] else []) ++
  (if snap.metadata.media_playback_position.isSome && os.set_media_playback_position.isSome then
    ["set_media_playback_position"] else [])

/-- Steps 6–7 of `restore`: force the execution mode back to OBSERVER,
then run the internal post-restore check. -/
def restoreTail (os : OSRestoreBackend) (snap : RestorationSnapshot) (tr : List String) :
    List String × Except RestorationError Bool :=
  match os.set_execution_mode with
  | .error _ => (tr ++ ["set_execution_mode"], .error .executionModeResetFailed)
  | .ok _ =>
    match verifyPostRestore os snap with
    | .error e => (tr ++ ["set_execution_mode", "get_execution_mode"], .error e)
    | .ok _ => (tr ++ ["set_execution_mode", "get_execution_mode"], .ok true)

/-- `RestoreProvider.restore`. Returns the primitives invoked and either
the raised `RestorationError` or the new `_restore_completed` flag.
Steps 0–2 and the extended-metadata restorations are invoked with their
outcomes swallowed; their `Except` results are never consulted. -/
def RestoreProvider.restore (os : OSRestoreBackend) (completed : Bool)
    (snap : RestorationSnapshot) : List String × Except RestorationError Bool :=
  if completed then ([], .ok completed)
  else
    let tr := restoreTracePrefix os snap
    match os.set_cursor_position with
    | .error _ => (tr ++ ["set_cursor_position"], .error .cursorRestoreFailed)
    | .ok _ =>
      let tr := tr ++ ["set_cursor_position", "focus_window"]
      let focused := match os.focus_window with
        | .ok b => b
        | .error _ => false
      if !focused then
        match os.activate_application with
        | .error _ => (tr ++ ["activate_application"], .error .applicationFocusFailed)
        | .ok false => (tr ++ ["activate_application"], .error .applicationFocusFailed)
        | .ok true => restoreTail os snap (tr ++ ["activate_application"])
      else restoreTail os snap tr

/-! ## Theorems -/

/-- C1: the claim says `evaluate` returns `Release` whenever the
forced-release flag is set. The `AuthorityDecision` enum defines no
`RELEASE` member, so the forced-release branch of `evaluate` instead
raises `AttributeError` at its `return AuthorityDecision.RELEASE`; here
evaluated at the concrete call
`evaluate(input_event_ts=0, high_risk=False, soc_confident=True)` right
after `emergency_reclaim()`. -/
theorem evaluate_forced_release_raises :
    AuthorityDecision.memberNamed "RELEASE" = none ∧
    InputArbitrator.evaluate
      (ArbState.emergencyReclaim
        { tracker_last_soc_ts := none, last_soc_action_ts := none, forced_release := false })
      0 false true = .error .attributeError := by
  constructor <;> rfl

/-- C5: with `force=false` and a non-blank reason, `request_transition`
is a no-op when the target equals the current mode, and raises the
illegal-transition error, leaving the state unchanged, whenever the
(current, target) pair lies outside
{Observer→Armed, Armed→Executing, Armed→Observer, Executing→Observer}. -/
theorem requestTransition_edge_discipline (t : Nat) (st : MCState) (target : SystemMode)
    (reason : String) (hreason : pyStrip reason ≠ "") :
    (target = st.mode → requestTransition t st target reason false = (st, none)) ∧
    (target ≠ st.mode →
      (st.mode, target) ∉
        [(SystemMode.OBSERVER, SystemMode.ARMED), (SystemMode.ARMED, SystemMode.EXECUTING),
         (SystemMode.ARMED, SystemMode.OBSERVER), (SystemMode.EXECUTING, SystemMode.OBSERVER)] →
      requestTransition t st target reason false = (st, some .illegalTransition)) := by
  constructor
  · intro h
    unfold requestTransition
    simp [hreason, h]
  · intro hne hmem
    unfold requestTransition
    cases hm : st.mode <;> cases target <;>
      simp_all [allowedTransitions, hreason]

/-- Witness for C5: from the initial state (Observer), requesting
Executing directly without force is refused and the state is unchanged. -/
theorem requestTransition_edge_discipline_witness :
    requestTransition 7 (MCState.init 0) .EXECUTING "go" false =
      (MCState.init 0, some .illegalTransition) :=
  (requestTransition_edge_discipline 7 (MCState.init 0) .EXECUTING "go" (by decide)).2
    (by decide) (by decide)

/-- `request_transition` never touches the health or vision flags. -/
theorem requestTransition_gate_frame (t : Nat) (st : MCState) (target : SystemMode)
    (reason : String) (force : Bool) :
    ((requestTransition t st target reason force).1).observer_healthy = st.observer_healthy ∧
    ((requestTransition t st target reason force).1).vision_ok = st.vision_ok ∧
    ((requestTransition t st target reason force).1).vision_failed_permanently =
      st.vision_failed_permanently := by
  unfold requestTransition recordTransition lockInput
  dsimp only
  refine ⟨?_, ?_, ?_⟩ <;>
    repeat first | rfl | split

/-- One operation preserves a lost observer-health flag. -/
theorem run_preserves_unhealthy (t : Nat) (st : MCState) (op : MCOp)
    (h : st.observer_healthy = false) : ((st.run t op).1).observer_healthy = false := by
  cases op with
  | updateObserverHealth healthy r =>
    simp [MCState.run, updateObserverHealth, h]
  | updateVisionStatus ok =>
    cases ok <;> simp [MCState.run, updateVisionStatus, h]
  | lockInput => simp [MCState.run, lockInput, h]
  | releaseInput => simp [MCState.run, releaseInput, h]
  | requestTransition target reason force =>
    simpa [MCState.run, h] using (requestTransition_gate_frame t st target reason force).1
  | arm reason =>
    simpa [MCState.run, MCState.arm, h] using
      (requestTransition_gate_frame t st .ARMED reason false).1
  | execute reason =>
    simpa [MCState.run, MCState.execute, h] using
      (requestTransition_gate_frame t st .EXECUTING reason false).1
  | disarm reason =>
    simp only [MCState.run, MCState.disarm]
    have := (requestTransition_gate_frame t st .OBSERVER reason true).1
    split
    · next st' heq =>
      rw [heq] at this
      simpa [releaseInput, h] using this
    · next st' e heq =>
      rw [heq] at this
      simpa [h] using this

/-- A lost observer-health flag survives any sequence of operations. -/
theorem runSeq_preserves_unhealthy (st : MCState) (ops : List (Nat × MCOp))
    (h : st.observer_healthy = false) : (st.runSeq ops).observer_healthy = false := by
  induction ops generalizing st with
  | nil => exact h
  | cons p rest ih =>
    exact ih _ (run_preserves_unhealthy p.1 st p.2 h)

/-- C2: observer health is monotonic — `update_observer_health(false, r)`
forces the flag to false and no sequence of later operations restores it;
and when the mode is Executing at the moment health is lost, that same
call moves the mode to Observer, records the transition as forced, and
releases the input lock. -/
theorem observer_health_monotonic_and_abort :
    (∀ (t : Nat) (st : MCState) (r : Option String) (ops : List (Nat × MCOp)),
      ((updateObserverHealth t st false r).runSeq ops).observer_healthy = false) ∧
    (∀ (t : Nat) (st : MCState) (r : Option String),
      st.observer_healthy = true → st.mode = .EXECUTING →
      (updateObserverHealth t st false r).mode = .OBSERVER ∧
      (updateObserverHealth t st false r).input_locked = false ∧
      ∃ pre rec_, (updateObserverHealth t st false r).history = pre ++ [rec_] ∧
        rec_.forced = true ∧ rec_.from_mode = .EXECUTING ∧ rec_.to_mode = .OBSERVER) := by
  constructor
  · intro t st r ops
    apply runSeq_preserves_unhealthy
    by_cases h : st.observer_healthy
    · simp only [updateObserverHealth, h, Bool.not_false, Bool.true_and, if_true]
      split <;> simp [forceAbort, recordTransition]
    · simp only [updateObserverHealth]
      rw [if_neg (by simp [h])]
      simpa using h
  · intro t st r hh hm
    have h1 : updateObserverHealth t st false r =
        forceAbort t
          { st with
            observer_healthy := false
            vision_failed_permanently := true
            failure_reason := some (r.getD "observer reported blindness") }
          "Observer health lost mid-execution" := by
      unfold updateObserverHealth
      rw [if_pos (by simp [hh])]
      rw [if_pos (by simpa using hm)]
    rw [h1]
    unfold forceAbort recordTransition
    refine ⟨rfl, rfl, ?_⟩
    simp only []
    split
    · next hlen =>
      have hk : (st.history ++
          [({ ts := t, from_mode := st.mode, to_mode := .OBSERVER,
              reason := "Observer health lost mid-execution", forced := true,
              vision_ok := st.vision_ok, observer_healthy := false } : TransitionRecord)]).length -
          MAX_TRANSITION_HISTORY ≤ st.history.length := by
        simp only [List.length_append, List.length_singleton, MAX_TRANSITION_HISTORY]
        omega
      exact ⟨_, _, List.drop_append_of_le_length hk, rfl, hm, rfl⟩
    · exact ⟨_,
        ⟨t, st.mode, .OBSERVER, "Observer health lost mid-execution", true,
          st.vision_ok, false⟩, rfl, rfl, hm, rfl⟩

/-- Witness for C2: losing health mid-execution in a concrete armed and
executing run aborts to Observer, unlocks input, appends a forced
abort record, and health stays lost over further operations. -/
theorem observer_health_monotonic_and_abort_witness :
    (((updateObserverHealth 4
        ((MCState.init 0).runSeq
          [(1, .updateVisionStatus true), (2, .arm "prep"), (3, .execute "go")])
        false (some "camera died")).runSeq
          [(5, .updateObserverHealth true none), (6, .updateVisionStatus true),
           (7, .arm "again")]).observer_healthy = false) ∧
    (updateObserverHealth 4
        ((MCState.init 0).runSeq
          [(1, .updateVisionStatus true), (2, .arm "prep"), (3, .execute "go")])
        false (some "camera died")).mode = .OBSERVER := by
  constructor
  · exact observer_health_monotonic_and_abort.1 4 _ (some "camera died") _
  · exact (observer_health_monotonic_and_abort.2 4 _ (some "camera died")
      (by decide) (by decide)).1

/-- C6 (counterexample): the claim says every `request_transition`
targeting Executing while vision is not ok fails with VisionUnavailable.
In the reachable state where the controller is already Executing and
vision has just been reported dead, the request targeting Executing is
the `target == current` no-op: it returns without any error. -/
theorem vision_gate_counterexample :
    (MCState.runSeq (MCState.init 0)
      [(1, .updateVisionStatus true), (2, .requestTransition .ARMED "r" false),
       (3, .requestTransition .EXECUTING "r" false), (4, .updateVisionStatus false)]).mode
        = .EXECUTING ∧
    (MCState.runSeq (MCState.init 0)
      [(1, .updateVisionStatus true), (2, .requestTransition .ARMED "r" false),
       (3, .requestTransition .EXECUTING "r" false), (4, .updateVisionStatus false)]).vision_ok
        = false ∧
    requestTransition 5
      (MCState.runSeq (MCState.init 0)
        [(1, .updateVisionStatus true), (2, .requestTransition .ARMED "r" false),
         (3, .requestTransition .EXECUTING "r" false), (4, .updateVisionStatus false)])
      .EXECUTING "r" false =
      (MCState.runSeq (MCState.init 0)
        [(1, .updateVisionStatus true), (2, .requestTransition .ARMED "r" false),
         (3, .requestTransition .EXECUTING "r" false), (4, .updateVisionStatus false)],
       none) := by
  refine ⟨by decide, by decide, by decide⟩

/-- `update_observer_health` leaves `vision_ok` unchanged, can only set
(never clear) the permanent vision-failure flag, and moves the mode only
to Observer if at all. -/
theorem updateObserverHealth_frame (t : Nat) (st : MCState) (healthy : Bool)
    (r : Option String) :
    ((updateObserverHealth t st healthy r).vision_ok = st.vision_ok) ∧
    ((updateObserverHealth t st healthy r).vision_failed_permanently = true ∨
     (updateObserverHealth t st healthy r).vision_failed_permanently =
       st.vision_failed_permanently) ∧
    ((updateObserverHealth t st healthy r).mode = st.mode ∨
     (updateObserverHealth t st healthy r).mode = .OBSERVER) := by
  unfold updateObserverHealth forceAbort recordTransition
  dsimp only
  split
  · split
    · exact ⟨rfl, Or.inl rfl, Or.inr rfl⟩
    · exact ⟨rfl, Or.inl rfl, Or.inl rfl⟩
  · exact ⟨rfl, Or.inr rfl, Or.inl rfl⟩

/-- One operation preserves permanent vision failure with a dead
vision-ok flag. -/
theorem run_preserves_vision_dead (t : Nat) (st : MCState) (op : MCOp)
    (h1 : st.vision_failed_permanently = true) (h2 : st.vision_ok = false) :
    ((st.run t op).1).vision_failed_permanently = true ∧
    ((st.run t op).1).vision_ok = false := by
  cases op with
  | updateObserverHealth healthy r =>
    have hf := updateObserverHealth_frame t st healthy r
    refine ⟨?_, hf.1.trans h2⟩
    rcases hf.2.1 with h | h
    · exact h
    · exact h.trans h1
  | updateVisionStatus ok =>
    cases ok <;> simp [MCState.run, updateVisionStatus, h1, h2]
  | lockInput => exact ⟨h1, h2⟩
  | releaseInput => exact ⟨h1, h2⟩
  | requestTransition target reason force =>
    have hf := requestTransition_gate_frame t st target reason force
    exact ⟨hf.2.2.trans h1, hf.2.1.trans h2⟩
  | arm reason =>
    have hf := requestTransition_gate_frame t st .ARMED reason false
    exact ⟨hf.2.2.trans h1, hf.2.1.trans h2⟩
  | execute reason =>
    have hf := requestTransition_gate_frame t st .EXECUTING reason false
    exact ⟨hf.2.2.trans h1, hf.2.1.trans h2⟩
  | disarm reason =>
    simp only [MCState.run, MCState.disarm]
    have hf := requestTransition_gate_frame t st .OBSERVER reason true
    split
    · next st' heq =>
      rw [heq] at hf
      exact ⟨hf.2.2.trans h1, hf.2.1.trans h2⟩
    · next st' e heq =>
      rw [heq] at hf
      exact ⟨hf.2.2.trans h1, hf.2.1.trans h2⟩

/-- Permanent vision failure with a dead vision-ok flag survives any
sequence of operations. -/
theorem runSeq_preserves_vision_dead (st : MCState) (ops : List (Nat × MCOp))
    (h1 : st.vision_failed_permanently = true) (h2 : st.vision_ok = false) :
    ((st.runSeq ops).vision_failed_permanently = true ∧ (st.runSeq ops).vision_ok = false) := by
  induction ops generalizing st with
  | nil => exact ⟨h1, h2⟩
  | cons p rest ih =>
    have h := run_preserves_vision_dead p.1 st p.2 h1 h2
    exact ih _ h.1 h.2

/-- No operation can move the controller into Executing while vision is
not ok. -/
theorem requestTransition_no_executing_without_vision (t : Nat) (st : MCState)
    (target : SystemMode) (reason : String) (force : Bool)
    (hv : st.vision_ok = false) (hm : st.mode ≠ .EXECUTING) :
    ((requestTransition t st target reason force).1).mode ≠ .EXECUTING := by
  unfold requestTransition lockInput recordTransition
  dsimp only
  split
  · exact hm
  · split
    · exact hm
    · split
      · exact hm
      · split
        · exact hm
        · split
          · exact hm
          · next hvg =>
            rw [hv] at hvg
            simp only [Bool.not_false, Bool.and_true, decide_eq_true_eq] at hvg
            split <;> simpa using hvg

/-- C6 (amended): `update_vision_status(false)` is permanent — vision
never reads ok again over any later operation sequence, even after
`update_vision_status(true)`; while vision is not ok no operation can
move the mode into Executing; and a `request_transition` targeting
Executing from another mode, with a non-blank reason, whose edge check
(or `force`) and observer-health gate pass, raises VisionUnavailable and
leaves the state unchanged. -/
theorem vision_failure_permanent_and_gates_executing :
    (∀ (st : MCState) (ops : List (Nat × MCOp)),
      ((updateVisionStatus st false).runSeq ops).vision_ok = false) ∧
    (∀ (t : Nat) (st : MCState) (op : MCOp), st.vision_ok = false → st.mode ≠ .EXECUTING →
      ((st.run t op).1).mode ≠ .EXECUTING) ∧
    (∀ (t : Nat) (st : MCState) (reason : String) (force : Bool),
      pyStrip reason ≠ "" → st.mode ≠ .EXECUTING →
      (force = true ∨ (allowedTransitions st.mode).contains .EXECUTING = true) →
      st.observer_healthy = true → st.vision_ok = false →
      requestTransition t st .EXECUTING reason force = (st, some .visionUnavailable)) := by
  refine ⟨?_, ?_, ?_⟩
  · intro st ops
    exact (runSeq_preserves_vision_dead _ ops (by simp [updateVisionStatus])
      (by simp [updateVisionStatus])).2
  · intro t st op hv hm
    cases op with
    | updateObserverHealth healthy r =>
      rcases (updateObserverHealth_frame t st healthy r).2.2 with h | h
      · simpa [MCState.run, h] using hm
      · simp [MCState.run, h]
    | updateVisionStatus ok =>
      cases ok <;> simpa [MCState.run, updateVisionStatus] using hm
    | lockInput => exact hm
    | releaseInput => exact hm
    | requestTransition target reason force =>
      exact requestTransition_no_executing_without_vision t st target reason force hv hm
    | arm reason =>
      exact requestTransition_no_executing_without_vision t st .ARMED reason false hv hm
    | execute reason =>
      exact requestTransition_no_executing_without_vision t st .EXECUTING reason false hv hm
    | disarm reason =>
      simp only [MCState.run, MCState.disarm]
      have hr := requestTransition_no_executing_without_vision t st .OBSERVER reason true hv hm
      split
      · next st' heq =>
        rw [heq] at hr
        simpa [releaseInput] using hr
      · next st' e heq =>
        rw [heq] at hr
        exact hr
  · intro t st reason force hreason hm hedge hobs hv
    unfold requestTransition
    dsimp only
    rw [if_neg hreason, if_neg (fun h => hm h.symm)]
    rw [if_neg (by
      rcases hedge with h | h
      · simp [h]
      · rw [h]
        simp)]
    rw [if_neg (by simp [hobs]), if_pos (by simp [hv])]

/-- Witness for C6 (amended): vision permanence after a concrete flip
back to true, and the VisionUnavailable refusal of a concrete forced
request into Executing without vision. -/
theorem vision_failure_permanent_witness :
    ((updateVisionStatus (MCState.init 0) false).runSeq
      [(1, .updateVisionStatus true), (2, .arm "prep")]).vision_ok = false ∧
    requestTransition 1 (MCState.init 0) .EXECUTING "go" true =
      (MCState.init 0, some .visionUnavailable) := by
  constructor
  · exact vision_failure_permanent_and_gates_executing.1 (MCState.init 0)
      [(1, .updateVisionStatus true), (2, .arm "prep")]
  · exact vision_failure_permanent_and_gates_executing.2.2 1 (MCState.init 0) "go" true
      (by decide) (by decide) (Or.inl rfl) (by decide) (by decide)

/-- `request_transition` never clears an engaged input lock. -/
theorem requestTransition_lock_mono (t : Nat) (st : MCState) (target : SystemMode)
    (reason : String) (force : Bool) (h : st.input_locked = true) :
    ((requestTransition t st target reason force).1).input_locked = true := by
  unfold requestTransition lockInput recordTransition
  dsimp only
  repeat first | exact h | rfl | split

/-- A `request_transition` not targeting Executing never touches the
input lock. -/
theorem requestTransition_lock_frame (t : Nat) (st : MCState) (target : SystemMode)
    (reason : String) (force : Bool) (ht : target ≠ .EXECUTING) :
    ((requestTransition t st target reason force).1).input_locked = st.input_locked := by
  unfold requestTransition lockInput recordTransition
  dsimp only
  repeat first | rfl | (exact absurd (by assumption) ht) | split

/-- C10: the input lock is engaged by every successful transition into
Executing; a non-forced transition from Executing to Observer leaves the
lock exactly as it was (so still engaged); and among the public
operations only `disarm`, `release_input`, and the forced abort that
`update_observer_health(false, _)` performs while Executing with healthy
observer can clear an engaged lock. -/
theorem input_lock_frame_conditions :
    (∀ (t : Nat) (st : MCState) (reason : String) (force : Bool),
      st.mode ≠ .EXECUTING →
      (requestTransition t st .EXECUTING reason force).2 = none →
      ((requestTransition t st .EXECUTING reason force).1).input_locked = true) ∧
    (∀ (t : Nat) (st : MCState) (reason : String),
      st.mode = .EXECUTING →
      ((requestTransition t st .OBSERVER reason false).1).input_locked = st.input_locked) ∧
    (∀ (t : Nat) (st : MCState) (op : MCOp),
      st.input_locked = true → ((st.run t op).1).input_locked = false →
      (∃ r, op = .disarm r) ∨ op = .releaseInput ∨
      (∃ r, op = .updateObserverHealth false r ∧ st.mode = .EXECUTING ∧
        st.observer_healthy = true)) := by
  refine ⟨?_, ?_, ?_⟩
  · intro t st reason force hm
    unfold requestTransition lockInput recordTransition
    dsimp only
    split
    · exact fun hc => nomatch hc
    · split
      · next heq => exact fun _ => absurd heq.symm hm
      · split
        · exact fun hc => nomatch hc
        · split
          · exact fun hc => nomatch hc
          · split
            · exact fun hc => nomatch hc
            · intro _
              rw [if_pos rfl]
  · intro t st reason _
    exact requestTransition_lock_frame t st .OBSERVER reason false (fun hc => nomatch hc)
  · intro t st op h hf
    cases op with
    | updateObserverHealth healthy r =>
      cases healthy with
      | true => simp [MCState.run, updateObserverHealth, h] at hf
      | false =>
        cases hobs : st.observer_healthy with
        | false => simp [MCState.run, updateObserverHealth, hobs, h] at hf
        | true =>
          by_cases hmE : st.mode = .EXECUTING
          · exact Or.inr (Or.inr ⟨r, rfl, hmE, rfl⟩)
          · simp [MCState.run, updateObserverHealth, hobs, hmE, h] at hf
    | updateVisionStatus ok =>
      cases ok <;> simp [MCState.run, updateVisionStatus, h] at hf
    | lockInput =>
      simp [MCState.run, lockInput] at hf
    | releaseInput => exact Or.inr (Or.inl rfl)
    | requestTransition target reason force =>
      have := requestTransition_lock_mono t st target reason force h
      simp only [MCState.run] at hf
      rw [this] at hf
      cases hf
    | arm reason =>
      have := requestTransition_lock_mono t st .ARMED reason false h
      simp only [MCState.run, MCState.arm] at hf
      rw [this] at hf
      cases hf
    | execute reason =>
      have := requestTransition_lock_mono t st .EXECUTING reason false h
      simp only [MCState.run, MCState.execute] at hf
      rw [this] at hf
      cases hf
    | disarm reason => exact Or.inl ⟨reason, rfl⟩

/-- Witness for C10: a concrete successful armed run engages the lock on
entry into Executing, and the non-forced return to Observer keeps it
engaged. -/
theorem input_lock_frame_conditions_witness :
    ((requestTransition 3
        ((MCState.init 0).runSeq [(1, .updateVisionStatus true), (2, .arm "prep")])
        .EXECUTING "go" false).1).input_locked = true ∧
    ((requestTransition 4
        ((MCState.init 0).runSeq
          [(1, .updateVisionStatus true), (2, .arm "prep"), (3, .execute "go")])
        .OBSERVER "done" false).1).input_locked =
      ((MCState.init 0).runSeq
        [(1, .updateVisionStatus true), (2, .arm "prep"), (3, .execute "go")]).input_locked := by
  constructor
  · exact input_lock_frame_conditions.1 3 _ "go" false (by decide) (by decide)
  · exact input_lock_frame_conditions.2.1 4 _ "done" (by decide)

/-- A true `isStrVal` pins the optional value down. -/
theorem isStrVal_eq_some {o : Option Json} {s : String} (h : isStrVal o s = true) :
    o = some (.str s) := by
  rcases o with _ | j
  · simp [isStrVal] at h
  · rcases j with _ | b | n | t | xs | kvs <;> simp [isStrVal] at h
    rw [h]

theorem entry_get_set_self (e : Entry) (k : String) (v : Json) :
    Entry.get (Entry.set e k v) k = some v := by
  induction e with
  | nil => simp [Entry.set, Entry.get, List.find?]
  | cons p rest ih =>
    rcases p with ⟨k', v'⟩
    by_cases hk : k' = k
    · subst hk
      simp [Entry.set, Entry.get, List.find?]
    · have hb : (k' == k) = false := beq_eq_false_iff_ne.mpr hk
      simp only [Entry.set, hb, Bool.false_eq_true, if_false]
      simp only [Entry.get, List.find?, hb]
      exact ih

theorem entry_get_set_ne (e : Entry) (k k' : String) (v : Json) (h : k' ≠ k) :
    Entry.get (Entry.set e k' v) k = Entry.get e k := by
  have hbk : (k' == k) = false := beq_eq_false_iff_ne.mpr h
  induction e with
  | nil => simp [Entry.set, Entry.get, List.find?, hbk]
  | cons p rest ih =>
    rcases p with ⟨k'', v''⟩
    by_cases hk : k'' = k'
    · subst hk
      simp [Entry.set, Entry.get, List.find?, hbk]
    · have hb2 : (k'' == k') = false := beq_eq_false_iff_ne.mpr hk
      simp only [Entry.set, hb2, Bool.false_eq_true, if_false]
      by_cases hkk : k'' = k
      · subst hkk
        simp [Entry.get, List.find?]
      · have hb3 : (k'' == k) = false := beq_eq_false_iff_ne.mpr hkk
        simp only [Entry.get, List.find?, hb3]
        exact ih

theorem entry_erase_set (e : Entry) (k : String) (v : Json)
    (h : Entry.get e k = none) : Entry.erase (Entry.set e k v) k = e := by
  induction e with
  | nil => simp [Entry.set, Entry.erase]
  | cons p rest ih =>
    rcases p with ⟨k', v'⟩
    by_cases hk : k' = k
    · subst hk
      simp [Entry.get, List.find?] at h
    · have hb : (k' == k) = false := beq_eq_false_iff_ne.mpr hk
      simp only [Entry.set, Entry.erase, hb, Bool.false_eq_true, if_false]
      have hrest : Entry.get rest k = none := by
        simpa [Entry.get, List.find?, hb] using h
      rw [ih hrest]

theorem entry_getStr_set_self (e : Entry) (k s : String) :
    Entry.getStr (Entry.set e k (.str s)) k = some s := by
  simp [Entry.getStr, entry_get_set_self]

theorem entry_getStr_set_ne (e : Entry) (k k' : String) (v : Json) (h : k' ≠ k) :
    Entry.getStr (Entry.set e k' v) k = Entry.getStr e k := by
  simp [Entry.getStr, entry_get_set_ne e k k' v h]

/-- The success path of `record`, spelled out: with neither integrity
check firing, `record` commits the chained entry. -/
theorem record_success (st : JState) (e : Entry)
    (h1 : ((isStrVal (Entry.get e "phase") "INTENT" ||
            isStrVal (Entry.get e "type") "SESSION_SEAL") &&
           st.last_intent_hash.isSome) = false)
    (h2 : (isStrVal (Entry.get e "phase") "EFFECT" && st.last_intent_hash.isNone) = false) :
    ActionJournal.record st e =
      (let step : Entry × Option String :=
        if isStrVal (Entry.get e "phase") "EFFECT" then
          (Entry.set e "intent_ref" (.str (st.last_intent_hash.getD "")), none)
        else (e, st.last_intent_hash)
      let entry2 := Entry.set step.1 "prev_hash" (.str st.last_hash)
      let currentHash := canonicalHash entry2
      .ok { last_hash := currentHash
            last_intent_hash :=
              if isStrVal (Entry.get e "phase") "INTENT" then some currentHash else step.2
            log := st.log ++ [Entry.set entry2 "hash" (.str currentHash)] }) := by
  unfold ActionJournal.record
  rw [if_neg (by simp [h1]), if_neg (by simp [h2])]

theorem isStrVal_effect_not_intent (e : Entry)
    (h : isStrVal (Entry.get e "phase") "EFFECT" = true) :
    isStrVal (Entry.get e "phase") "INTENT" = false := by
  rw [isStrVal_eq_some h]
  rfl

theorem isStrVal_intent_not_effect (e : Entry)
    (h : isStrVal (Entry.get e "phase") "INTENT" = true) :
    isStrVal (Entry.get e "phase") "EFFECT" = false := by
  rw [isStrVal_eq_some h]
  rfl

/-- Recording an Intent-phase entry with no pending marker succeeds and
leaves the new entry's hash pending. -/
theorem record_intent_ok (st : JState) (e : Entry)
    (hint : isStrVal (Entry.get e "phase") "INTENT" = true)
    (hnone : st.last_intent_hash = none) :
    ∃ st', ActionJournal.record st e = .ok st' ∧
      ∃ hch, st'.last_intent_hash = some hch := by
  have heffF := isStrVal_intent_not_effect e hint
  rw [record_success st e (by simp [hnone]) (by simp [heffF])]
  dsimp only
  rw [if_neg (by simp [heffF]), if_pos hint]
  exact ⟨_, rfl, _, rfl⟩

/-- Recording an Effect-phase (non-seal) entry while an Intent is
pending succeeds, stamps `intent_ref`, and clears the marker. -/
theorem record_effect_ok (st : JState) (e : Entry) (hv : String)
    (heff : isStrVal (Entry.get e "phase") "EFFECT" = true)
    (hnseal : isStrVal (Entry.get e "type") "SESSION_SEAL" = false)
    (hsome : st.last_intent_hash = some hv) :
    ∃ st' e', ActionJournal.record st e = .ok st' ∧
      st'.last_intent_hash = none ∧
      st'.log = st.log ++ [e'] ∧
      Entry.getStr e' "intent_ref" = some hv := by
  have hintF := isStrVal_effect_not_intent e heff
  rw [record_success st e (by simp [hintF, hnseal, hsome]) (by simp [hsome])]
  dsimp only
  rw [if_pos heff, if_neg (by simp [hintF])]
  refine ⟨_, _, rfl, rfl, rfl, ?_⟩
  rw [hsome]
  rw [entry_getStr_set_ne _ _ _ _ (by decide), entry_getStr_set_ne _ _ _ _ (by decide),
    entry_getStr_set_self]
  rfl

/-- Sealing with no pending Intent succeeds. -/
theorem seal_ok (st : JState) (t : Int) (r : String)
    (h : st.last_intent_hash = none) :
    ∃ st', ActionJournal.seal st t r = .ok st' := by
  unfold ActionJournal.seal
  rw [record_success _ _ (by simp [h]) (by simp [h]; rfl)]
  exact ⟨_, rfl⟩

/-- C3: the ledger's two-phase protocol. Recording an Intent-phase entry
or a session-seal entry while an Intent is pending raises the integrity
error; recording an Effect-phase entry with no pending Intent raises the
integrity error; recording an Effect-phase (non-seal) entry while an
Intent is pending succeeds, stamps the stored entry's `intent_ref` with
the pending Intent's hash and clears the marker; and from a state with
no pending Intent, one Intent followed by one Effect lets `seal`
succeed. -/
theorem journal_two_phase_protocol :
    (∀ (st : JState) (e : Entry),
      (isStrVal (Entry.get e "phase") "INTENT" = true ∨
       isStrVal (Entry.get e "type") "SESSION_SEAL" = true) →
      st.last_intent_hash.isSome = true →
      ActionJournal.record st e =
        .error "AUDIT_INTEGRITY_FAILURE: Unresolved INTENT without EFFECT.") ∧
    (∀ (st : JState) (e : Entry),
      isStrVal (Entry.get e "phase") "EFFECT" = true →
      st.last_intent_hash = none →
      ActionJournal.record st e =
        .error "AUDIT_INTEGRITY_FAILURE: EFFECT recorded without active INTENT.") ∧
    (∀ (st : JState) (e : Entry) (hv : String),
      isStrVal (Entry.get e "phase") "EFFECT" = true →
      isStrVal (Entry.get e "type") "SESSION_SEAL" = false →
      st.last_intent_hash = some hv →
      ∃ (st' : JState) (e' : Entry),
        ActionJournal.record st e = .ok st' ∧
        st'.last_intent_hash = none ∧
        st'.log = st.log ++ [e'] ∧
        Entry.getStr e' "intent_ref" = some hv) ∧
    (∀ (st : JState) (e1 e2 : Entry) (t : Int) (r : String),
      st.last_intent_hash = none →
      isStrVal (Entry.get e1 "phase") "INTENT" = true →
      isStrVal (Entry.get e2 "phase") "EFFECT" = true →
      isStrVal (Entry.get e2 "type") "SESSION_SEAL" = false →
      ∃ st1 st2 st3,
        ActionJournal.record st e1 = .ok st1 ∧
        ActionJournal.record st1 e2 = .ok st2 ∧
        ActionJournal.seal st2 t r = .ok st3) := by
  refine ⟨?_, ?_, ?_, ?_⟩
  · intro st e hor hsome
    unfold ActionJournal.record
    rw [if_pos]
    rcases hor with h | h <;> simp [h, hsome]
  · intro st e heff hnone
    unfold ActionJournal.record
    rw [if_neg (by simp [hnone]), if_pos (by simp [heff, hnone])]
  · intro st e hv heff hnseal hsome
    exact record_effect_ok st e hv heff hnseal hsome
  · intro st e1 e2 t r hnone hint heff hnseal
    obtain ⟨st1, hr1, hch, hsome1⟩ := record_intent_ok st e1 hint hnone
    obtain ⟨st2, e', hr2, hnone2, _, _⟩ := record_effect_ok st1 e2 hch heff hnseal hsome1
    obtain ⟨st3, hr3⟩ := seal_ok st2 t r hnone2
    exact ⟨st1, st2, st3, hr1, hr2, hr3⟩

/-- Witness for C3: the protocol exercised on concrete entries — double
Intent is refused, an orphan Effect is refused, Intent/Effect pairing
binds `intent_ref`, and sealing after one Intent and one Effect
succeeds. -/
theorem journal_two_phase_protocol_witness :
    (∃ st1, ActionJournal.record JState.fresh [("phase", Json.str "INTENT")] = .ok st1 ∧
      ActionJournal.record st1 [("phase", Json.str "INTENT")] =
        .error "AUDIT_INTEGRITY_FAILURE: Unresolved INTENT without EFFECT.") ∧
    (ActionJournal.record JState.fresh [("phase", Json.str "EFFECT")] =
      .error "AUDIT_INTEGRITY_FAILURE: EFFECT recorded without active INTENT.") ∧
    (∃ st1 st2 st3,
      ActionJournal.record JState.fresh [("phase", Json.str "INTENT")] = .ok st1 ∧
      ActionJournal.record st1 [("phase", Json.str "EFFECT")] = .ok st2 ∧
      ActionJournal.seal st2 9 "NORMAL" = .ok st3) := by
  refine ⟨?_, ?_, ?_⟩
  · obtain ⟨st1, st2, st3, h1, h2, h3⟩ :=
      journal_two_phase_protocol.2.2.2 JState.fresh
        [("phase", Json.str "INTENT")] [("phase", Json.str "EFFECT")] 9 "NORMAL"
        rfl (by decide) (by decide) (by decide)
    refine ⟨st1, h1, ?_⟩
    apply journal_two_phase_protocol.1 st1 [("phase", Json.str "INTENT")]
      (Or.inl (by decide))
    have hsome : st1.last_intent_hash.isSome = true := by
      by_contra hc
      rw [Option.not_isSome_iff_eq_none] at hc
      rw [journal_two_phase_protocol.2.1 st1 [("phase", Json.str "EFFECT")]
        (by decide) hc] at h2
      cases h2
    exact hsome
  · exact journal_two_phase_protocol.2.1 JState.fresh
      [("phase", Json.str "EFFECT")] (by decide) rfl
  · exact journal_two_phase_protocol.2.2.2 JState.fresh
      [("phase", Json.str "INTENT")] [("phase", Json.str "EFFECT")] 9 "NORMAL"
      rfl (by decide) (by decide) (by decide)

/-- Appending a correctly linked, correctly hashed entry preserves the
chain check, and moves the chain head to its hash. -/
theorem chainOkB_append (log : List Entry) (prev : String) (e : Entry)
    (hok : chainOkB prev log = true)
    (hprev : Entry.getStr e "prev_hash" = some (chainLast prev log))
    (hhash : Entry.getStr e "hash" =
      some (sha256hex (Json.dumps (.obj (Entry.erase e "hash"))))) :
    chainOkB prev (log ++ [e]) = true ∧
    chainLast prev (log ++ [e]) = (Entry.getStr e "hash").getD "" := by
  induction log generalizing prev with
  | nil =>
    constructor
    · simp only [List.nil_append, chainOkB, chainLast] at hprev ⊢
      rw [hprev, hhash]
      simp [chainOkB]
    · simp [chainLast]
  | cons e0 rest ih =>
    simp only [chainOkB, List.cons_append, Bool.and_eq_true] at hok
    rcases hok with ⟨hp0, hrest⟩
    cases hh0 : Entry.getStr e0 "hash" with
    | none =>
      rw [hh0] at hrest
      cases hrest
    | some h0 =>
      rw [hh0] at hrest
      simp only [Bool.and_eq_true] at hrest
      rcases hrest with ⟨hsha, hchain⟩
      have hprev' : Entry.getStr e "prev_hash" = some (chainLast h0 rest) := by
        rw [hprev]
        simp [chainLast, hh0]
      obtain ⟨ha, hb⟩ := ih h0 hchain hprev'
      constructor
      · simp only [chainOkB, List.cons_append, hh0, hp0, Bool.true_and]
        rw [hsha]
        simpa using ha
      · simp only [chainLast, List.cons_append, hh0, Option.getD_some]
        exact hb

/-- Committing the chained form of an entry that carries no `hash` key
of its own preserves the chain invariant. -/
theorem record_commit_chain (st : JState) (entry1 : Entry)
    (hget1 : Entry.get entry1 "hash" = none)
    (hok : chainOkB zeros64 st.log = true)
    (hlast : st.last_hash = chainLast zeros64 st.log) :
    chainOkB zeros64 (st.log ++
      [Entry.set (Entry.set entry1 "prev_hash" (.str st.last_hash)) "hash"
        (.str (canonicalHash (Entry.set entry1 "prev_hash" (.str st.last_hash))))]) = true ∧
    chainLast zeros64 (st.log ++
      [Entry.set (Entry.set entry1 "prev_hash" (.str st.last_hash)) "hash"
        (.str (canonicalHash (Entry.set entry1 "prev_hash" (.str st.last_hash))))]) =
      canonicalHash (Entry.set entry1 "prev_hash" (.str st.last_hash)) := by
  have hget2 : Entry.get (Entry.set entry1 "prev_hash" (.str st.last_hash)) "hash" = none := by
    rw [entry_get_set_ne _ _ _ _ (by decide)]
    exact hget1
  have hprev : Entry.getStr
      (Entry.set (Entry.set entry1 "prev_hash" (.str st.last_hash)) "hash"
        (.str (canonicalHash (Entry.set entry1 "prev_hash" (.str st.last_hash)))))
      "prev_hash" = some (chainLast zeros64 st.log) := by
    rw [entry_getStr_set_ne _ _ _ _ (by decide), entry_getStr_set_self]
    rw [hlast]
  have herase : Entry.erase
      (Entry.set (Entry.set entry1 "prev_hash" (.str st.last_hash)) "hash"
        (.str (canonicalHash (Entry.set entry1 "prev_hash" (.str st.last_hash)))))
      "hash" = Entry.set entry1 "prev_hash" (.str st.last_hash) :=
    entry_erase_set _ _ _ hget2
  have hhash : Entry.getStr
      (Entry.set (Entry.set entry1 "prev_hash" (.str st.last_hash)) "hash"
        (.str (canonicalHash (Entry.set entry1 "prev_hash" (.str st.last_hash)))))
      "hash" = some (sha256hex (Json.dumps (.obj (Entry.erase
        (Entry.set (Entry.set entry1 "prev_hash" (.str st.last_hash)) "hash"
          (.str (canonicalHash (Entry.set entry1 "prev_hash" (.str st.last_hash)))))
        "hash")))) := by
    rw [entry_getStr_set_self, herase]
    rfl
  obtain ⟨ha, hb⟩ := chainOkB_append st.log zeros64 _ hok hprev hhash
  refine ⟨ha, ?_⟩
  rw [hb, entry_getStr_set_self]
  rfl

/-- A successful `record` of an entry without a caller-supplied `hash`
key preserves the chain invariant. -/
theorem record_preserves_chainInv (st : JState) (e : Entry) (st' : JState)
    (hnohash : Entry.get e "hash" = none)
    (hok : chainOkB zeros64 st.log = true)
    (hlast : st.last_hash = chainLast zeros64 st.log)
    (hrec : ActionJournal.record st e = .ok st') :
    chainOkB zeros64 st'.log = true ∧ st'.last_hash = chainLast zeros64 st'.log := by
  cases hc1 : ((isStrVal (Entry.get e "phase") "INTENT" ||
      isStrVal (Entry.get e "type") "SESSION_SEAL") && st.last_intent_hash.isSome) with
  | true =>
    unfold ActionJournal.record at hrec
    rw [if_pos hc1] at hrec
    cases hrec
  | false =>
    cases hc2 : (isStrVal (Entry.get e "phase") "EFFECT" && st.last_intent_hash.isNone) with
    | true =>
      unfold ActionJournal.record at hrec
      rw [if_neg (by simp [hc1]), if_pos hc2] at hrec
      cases hrec
    | false =>
      rw [record_success st e hc1 hc2] at hrec
      dsimp only at hrec
      by_cases heff : isStrVal (Entry.get e "phase") "EFFECT" = true
      · rw [if_pos heff] at hrec
        dsimp only at hrec
        cases hrec
        have hget1 : Entry.get (Entry.set e "intent_ref"
            (.str (st.last_intent_hash.getD ""))) "hash" = none := by
          rw [entry_get_set_ne _ _ _ _ (by decide)]
          exact hnohash
        have hcc := record_commit_chain st _ hget1 hok hlast
        exact ⟨hcc.1, hcc.2.symm⟩
      · rw [if_neg heff] at hrec
        dsimp only at hrec
        cases hrec
        have hcc := record_commit_chain st e hnohash hok hlast
        exact ⟨hcc.1, hcc.2.symm⟩

/-- A successful `recordAll` of entries without caller-supplied `hash`
keys preserves the chain invariant. -/
theorem recordAll_preserves_chainInv (es : List Entry) (st st' : JState)
    (hnh : ∀ e ∈ es, Entry.get e "hash" = none)
    (hok : chainOkB zeros64 st.log = true)
    (hlast : st.last_hash = chainLast zeros64 st.log)
    (h : ActionJournal.recordAll st es = .ok st') :
    chainOkB zeros64 st'.log = true ∧ st'.last_hash = chainLast zeros64 st'.log := by
  induction es generalizing st with
  | nil =>
    unfold ActionJournal.recordAll at h
    cases h
    exact ⟨hok, hlast⟩
  | cons e rest ih =>
    unfold ActionJournal.recordAll at h
    cases hrec : ActionJournal.record st e with
    | error m =>
      rw [hrec] at h
      cases h
    | ok st1 =>
      rw [hrec] at h
      obtain ⟨hok1, hlast1⟩ := record_preserves_chainInv st e st1
        (hnh e (List.mem_cons_self e rest)) hok hlast hrec
      exact ih st1 (fun e' he' => hnh e' (List.mem_cons_of_mem _ he')) hok1 hlast1 h

/-- C4 (amended): for every sequence of successful `record` calls whose
entries do not already carry a caller-supplied `hash` key, the resulting
log passes the full chain check: the first entry's `prev_hash` is the
64-zero sentinel, each later entry's `prev_hash` equals its
predecessor's `hash`, and every entry's `hash` is the SHA-256 digest of
the canonical JSON serialization of the entry with its `prev_hash` but
without its `hash` field. -/
theorem ledger_hash_chain (t : Int) (es : List Entry) (st' : JState)
    (hnh : ∀ e ∈ es, Entry.get e "hash" = none)
    (h : (ActionJournal.init t).bind (fun st0 => ActionJournal.recordAll st0 es) = .ok st') :
    chainOkB zeros64 st'.log = true := by
  cases hinit : ActionJournal.init t with
  | error m =>
    rw [hinit] at h
    cases h
  | ok st0 =>
    rw [hinit] at h
    obtain ⟨hok0, hlast0⟩ := record_preserves_chainInv JState.fresh
      [("type", .str "SESSION_START"), ("timestamp", .int t)] st0 rfl rfl rfl hinit
    exact (recordAll_preserves_chainInv es st0 st' hnh hok0 hlast0 h).1

/-- C4 (counterexample): the claim quantifies over every sequence of
successful `record` calls. Recording the entry `{"hash": "x"}` succeeds,
yet the stored second entry's `hash` is the digest of the serialization
that still contains the caller's `"hash": "x"` pair (the field is
overwritten only after hashing), not of the entry without its `hash`
field, so the chain check over the resulting log fails. -/
theorem ledger_hash_chain_counterexample :
    ((ActionJournal.init 0).bind
        (fun st0 => ActionJournal.record st0 [("hash", Json.str "x")])).toOption.map
      (fun st' => (chainOkB zeros64 st'.log,
        Entry.getStr (st'.log.getD 1 []) "hash" ==
          some (sha256hex (Json.dumps (.obj (Entry.erase (st'.log.getD 1 []) "hash")))))) =
      some (false, false) := by
  decide

/-- Witness for C4 (amended): the chain check holds on the concrete log
produced by the genesis record plus one Intent entry. -/
theorem ledger_hash_chain_witness :
    chainOkB zeros64
      (((ActionJournal.init 0).bind
          (fun st0 => ActionJournal.recordAll st0 [[("phase", Json.str "INTENT")]])).toOption.getD
        JState.fresh).log = true :=
  ledger_hash_chain 0 [[("phase", Json.str "INTENT")]] _
    (by
      intro e he
      simp only [List.mem_singleton] at he
      subst he
      rfl)
    (by rfl)

/-- C7 (counterexample): the claim's keyword set includes "settings",
but the engine's pattern list is exactly delete/remove/format/sudo/erase.
A button labelled "Open Settings" in the allow-listed app gedit passes
every deny gate and its label contains "settings", yet `validate`
returns Allow rather than RequireHumanConfirmation. -/
theorem policy_settings_counterexample :
    strHasSub (pyLower (pyOrDefault (some "Open Settings") "")) "settings" = true ∧
    PolicyEngine.allowed_apps.contains (appNameOf (some { name := some "gedit" })) = true ∧
    PolicyEngine.validate
      { getRoleName := .ok (some "push button"), name := .ok (some "Open Settings"),
        getApplication := .ok (some { name := some "gedit" }) } "click" =
      (PolicyEngine.ALLOW, none) := by
  refine ⟨by decide, by decide, by decide⟩

/-- C7 (amended): `validate` implements the ordered, first-match-wins,
deny-by-default table — unidentified owning application → Deny;
application not on the allow-list → Deny; role on the deny-list → Deny;
type action with a non-text-entry role → Deny; a case-insensitive
substring match of the label against the exact keyword set
{delete, remove, format, sudo, erase} → RequireHumanConfirmation;
otherwise Allow — and any raising accessor yields Deny. -/
theorem policy_first_match_table :
    (∀ (node : PolicyNode) (action : String) (roleRaw nmRaw : Option String)
       (appObj : Option PyApp),
      node.getRoleName = .ok roleRaw → node.name = .ok nmRaw →
      node.getApplication = .ok appObj →
      (appNameOf appObj = "unknown" →
        PolicyEngine.validate node action =
          (PolicyEngine.DENY, some "Application identity unavailable")) ∧
      (appNameOf appObj ≠ "unknown" →
        PolicyEngine.allowed_apps.contains (appNameOf appObj) = false →
        PolicyEngine.validate node action =
          (PolicyEngine.DENY, some ("Unauthorized application: " ++ appNameOf appObj))) ∧
      (appNameOf appObj ≠ "unknown" →
        PolicyEngine.allowed_apps.contains (appNameOf appObj) = true →
        PolicyEngine.denied_roles.contains (pyLower (pyOrDefault roleRaw "unknown")) = true →
        PolicyEngine.validate node action =
          (PolicyEngine.DENY,
           some ("Forbidden role: " ++ pyLower (pyOrDefault roleRaw "unknown")))) ∧
      (appNameOf appObj ≠ "unknown" →
        PolicyEngine.allowed_apps.contains (appNameOf appObj) = true →
        PolicyEngine.denied_roles.contains (pyLower (pyOrDefault roleRaw "unknown")) = false →
        ((action == "type") && !(strHasSub (pyLower (pyOrDefault roleRaw "unknown")) "text") &&
          !(strHasSub (pyLower (pyOrDefault roleRaw "unknown")) "entry")) = true →
        PolicyEngine.validate node action =
          (PolicyEngine.DENY,
           some ("Semantic violation: type into role " ++
             pyLower (pyOrDefault roleRaw "unknown")))) ∧
      (∀ pat, appNameOf appObj ≠ "unknown" →
        PolicyEngine.allowed_apps.contains (appNameOf appObj) = true →
        PolicyEngine.denied_roles.contains (pyLower (pyOrDefault roleRaw "unknown")) = false →
        ((action == "type") && !(strHasSub (pyLower (pyOrDefault roleRaw "unknown")) "text") &&
          !(strHasSub (pyLower (pyOrDefault roleRaw "unknown")) "entry")) = false →
        PolicyEngine.high_risk_name_patterns.find?
          (fun p => strHasSub (pyLower (pyOrDefault nmRaw "")) p) = some pat →
        PolicyEngine.validate node action =
          (PolicyEngine.REQUIRE_HUMAN_CONFIRMATION,
           some ("High-risk label detected: " ++ pat))) ∧
      (appNameOf appObj ≠ "unknown" →
        PolicyEngine.allowed_apps.contains (appNameOf appObj) = true →
        PolicyEngine.denied_roles.contains (pyLower (pyOrDefault roleRaw "unknown")) = false →
        ((action == "type") && !(strHasSub (pyLower (pyOrDefault roleRaw "unknown")) "text") &&
          !(strHasSub (pyLower (pyOrDefault roleRaw "unknown")) "entry")) = false →
        PolicyEngine.high_risk_name_patterns.find?
          (fun p => strHasSub (pyLower (pyOrDefault nmRaw "")) p) = none →
        PolicyEngine.validate node action = (PolicyEngine.ALLOW, none))) ∧
    (∀ (node : PolicyNode) (action : String),
      (node.getRoleName = .error () ∨ node.name = .error () ∨
       node.getApplication = .error ()) →
      PolicyEngine.validate node action =
        (PolicyEngine.DENY, some "Policy internal error")) := by
  constructor
  · intro node action roleRaw nmRaw appObj hr hn ha
    refine ⟨?_, ?_, ?_, ?_, ?_, ?_⟩
    · intro happ
      unfold PolicyEngine.validate
      rw [hr, hn, ha]
      dsimp only
      rw [if_pos happ]
    · intro happ hc
      unfold PolicyEngine.validate
      rw [hr, hn, ha]
      dsimp only
      rw [if_neg happ, if_pos (by rw [hc]; rfl)]
    · intro happ hc hrole
      unfold PolicyEngine.validate
      rw [hr, hn, ha]
      dsimp only
      rw [if_neg happ, if_neg (by rw [hc]; decide), if_pos hrole]
    · intro happ hc hrole htype
      unfold PolicyEngine.validate
      rw [hr, hn, ha]
      dsimp only
      rw [if_neg happ, if_neg (by rw [hc]; decide), if_neg (by rw [hrole]; decide), if_pos htype]
    · intro pat happ hc hrole htype hfind
      unfold PolicyEngine.validate
      rw [hr, hn, ha]
      dsimp only
      rw [if_neg happ, if_neg (by rw [hc]; decide), if_neg (by rw [hrole]; decide),
        if_neg (by rw [htype]; decide), hfind]
    · intro happ hc hrole htype hfind
      unfold PolicyEngine.validate
      rw [hr, hn, ha]
      dsimp only
      rw [if_neg happ, if_neg (by rw [hc]; decide), if_neg (by rw [hrole]; decide),
        if_neg (by rw [htype]; decide), hfind]
  · intro node action h
    rcases hr : node.getRoleName with e1 | roleRaw <;>
      rcases hn : node.name with e2 | nmRaw <;>
        rcases ha : node.getApplication with e3 | appObj <;>
          (unfold PolicyEngine.validate; rw [hr, hn, ha]; try rfl)
    rcases h with h | h | h
    · rw [hr] at h
      cases h
    · rw [hn] at h
      cases h
    · rw [ha] at h
      cases h

/-- Witness for C7 (amended): concrete nodes exercising the
unauthorized-application row, the forbidden-role row, the high-risk
label row, and the fail-closed accessor-error row. -/
theorem policy_first_match_table_witness :
    PolicyEngine.validate
      { getRoleName := .ok (some "push button"), name := .ok (some "OK"),
        getApplication := .ok (some { name := some "notepad" }) } "click" =
      (PolicyEngine.DENY,
       some ("Unauthorized application: " ++ appNameOf (some { name := some "notepad" }))) ∧
    PolicyEngine.validate
      { getRoleName := .ok (some "password text"), name := .ok (some "x"),
        getApplication := .ok (some { name := some "firefox" }) } "click" =
      (PolicyEngine.DENY,
       some ("Forbidden role: " ++ pyLower (pyOrDefault (some "password text") "unknown"))) ∧
    PolicyEngine.validate
      { getRoleName := .ok (some "text entry"), name := .ok (some "Delete all files"),
        getApplication := .ok (some { name := some "gedit" }) } "type" =
      (PolicyEngine.REQUIRE_HUMAN_CONFIRMATION,
       some ("High-risk label detected: " ++ "delete")) ∧
    PolicyEngine.validate
      { getRoleName := .ok none, name := .ok none, getApplication := .error () } "click" =
      (PolicyEngine.DENY, some "Policy internal error") := by
  refine ⟨?_, ?_, ?_, ?_⟩
  · exact (policy_first_match_table.1 _ "click" (some "push button") (some "OK")
      (some { name := some "notepad" }) rfl rfl rfl).2.1 (by decide) (by decide)
  · exact (policy_first_match_table.1 _ "click" (some "password text") (some "x")
      (some { name := some "firefox" }) rfl rfl rfl).2.2.1 (by decide) (by decide) (by decide)
  · exact (policy_first_match_table.1 _ "type" (some "text entry") (some "Delete all files")
      (some { name := some "gedit" }) rfl rfl rfl).2.2.2.2.1 "delete" (by decide) (by decide)
      (by decide) (by decide) (by decide)
  · exact policy_first_match_table.2 _ "click" (Or.inr (Or.inr rfl))

/-- A snapshot `create` hands back has passed `validate`. -/
theorem create_ok_validates (uuid : String) (now : Int) (cursor : CursorState)
    (focus : FocusState) (app : ApplicationState) (mode : String) (metadata : SnapMetadata)
    (snap : RestorationSnapshot)
    (h : RestorationSnapshot.create uuid now cursor focus app mode metadata = .ok snap) :
    snap.validateB = true := by
  unfold RestorationSnapshot.create at h
  dsimp only at h
  split at h
  · next hv =>
    cases h
    exact hv
  · cases h

/-- Unpacking the snapshot invariants from a passed `validate`. -/
theorem validateB_fields (snap : RestorationSnapshot) (h : snap.validateB = true) :
    snap.execution_mode = "OBSERVER" ∧ 0 ≤ snap.cursor.x ∧ 0 ≤ snap.cursor.y ∧
    snap.focus.window_id ≠ "" ∧ snap.application.process_name ≠ "" ∧
    (∀ p, snap.application.pid = some p → 0 < p) := by
  unfold RestorationSnapshot.validateB at h
  rw [Bool.and_eq_true, Bool.and_eq_true, Bool.and_eq_true, Bool.and_eq_true,
    Bool.and_eq_true] at h
  obtain ⟨⟨⟨⟨⟨hid, hcap⟩, hmode⟩, hcur⟩, hfoc⟩, happ⟩ := h
  unfold CursorState.validateB at hcur
  unfold FocusState.validateB at hfoc
  unfold ApplicationState.validateB at happ
  rw [Bool.and_eq_true] at happ
  obtain ⟨hpn, hpid⟩ := happ
  simp only [Bool.not_eq_true', Bool.or_eq_false_iff, decide_eq_false_iff_not, not_lt] at hcur
  refine ⟨by simpa using hmode, hcur.1, hcur.2, by simpa using hfoc, by simpa using hpn, ?_⟩
  intro p hp
  rw [hp] at hpid
  simp only [Bool.not_eq_true', decide_eq_false_iff_not, Int.not_le] at hpid
  exact hpid

/-- C8: `capture_pre_hijack_snapshot` raises when the current execution
mode is not Observer or the live observation feed is unavailable or
blind; and any snapshot it returns satisfies every snapshot invariant,
because the constructor re-validates before handing it out. -/
theorem snapshot_capture_gate :
    (∀ (os : OSSnapshotBackend) (screen : ScreenState) (metaId uuid : String) (now : Int),
      os.get_execution_mode ≠ "OBSERVER" →
      ∃ m, SnapshotProvider.capture os screen metaId uuid now = .error m) ∧
    (∀ (os : OSSnapshotBackend) (screen : ScreenState) (metaId uuid : String) (now : Int),
      screen.available = false ∨ screen.blind = true →
      ∃ m, SnapshotProvider.capture os screen metaId uuid now = .error m) ∧
    (∀ (os : OSSnapshotBackend) (screen : ScreenState) (metaId uuid : String) (now : Int)
       (snap : RestorationSnapshot),
      SnapshotProvider.capture os screen metaId uuid now = .ok snap →
      snap.execution_mode = "OBSERVER" ∧ 0 ≤ snap.cursor.x ∧ 0 ≤ snap.cursor.y ∧
      snap.focus.window_id ≠ "" ∧ snap.application.process_name ≠ "" ∧
      (∀ p, snap.application.pid = some p → 0 < p)) := by
  refine ⟨?_, ?_, ?_⟩
  · intro os screen metaId uuid now hm
    unfold SnapshotProvider.capture
    dsimp only
    rw [if_pos hm]
    exact ⟨_, rfl⟩
  · intro os screen metaId uuid now hs
    unfold SnapshotProvider.capture
    dsimp only
    by_cases hm : os.get_execution_mode ≠ "OBSERVER"
    · rw [if_pos hm]
      exact ⟨_, rfl⟩
    · rw [if_neg hm, if_pos (by rcases hs with h | h <;> simp [h])]
      exact ⟨_, rfl⟩
  · intro os screen metaId uuid now snap hcap
    unfold SnapshotProvider.capture at hcap
    dsimp only at hcap
    split at hcap
    · cases hcap
    · split at hcap
      · cases hcap
      · split at hcap
        · exact validateB_fields snap (create_ok_validates _ _ _ _ _ _ _ _ hcap)
        · cases hcap

/-- Witness for C8: a concrete blind feed is refused, and a concrete
successful capture returns a snapshot whose invariants all hold. -/
theorem snapshot_capture_gate_witness :
    (∃ m, SnapshotProvider.capture
      { get_execution_mode := "OBSERVER", get_cursor_position := .ok (5, 7),
        get_focused_window := .ok { winId := some "w1", title := some "T" },
        get_active_application := .ok { process_name := some "gedit", pid := some 42 },
        get_window_geometry := none, get_window_z_order := none, get_browser_state := none,
        get_media_playback_position := none, get_os_signature := none }
      { available := true, blind := true, frame_ts := some 1, screen_text_hash := some "h" }
      "m" "u" 3 = .error m) ∧
    (0 ≤ ((SnapshotProvider.capture
      { get_execution_mode := "OBSERVER", get_cursor_position := .ok (5, 7),
        get_focused_window := .ok { winId := some "w1", title := some "T" },
        get_active_application := .ok { process_name := some "gedit", pid := some 42 },
        get_window_geometry := none, get_window_z_order := none, get_browser_state := none,
        get_media_playback_position := none, get_os_signature := none }
      { available := true, blind := false, frame_ts := some 1, screen_text_hash := some "h" }
      "m" "u" 3).toOption.getD
        { snapshot_id := "z"
          captured_at := 1
          cursor := { x := 0, y := 0 }
          focus := { window_id := "w", title := none }
          application := { process_name := "p", pid := none }
          execution_mode := "OBSERVER"
          metadata := {
            schema_version := "1.1"
            snapshot_id := "m"
            frame_ts := none
            screen_text_hash := none
            screenpipe_captured_at := 0
            window_geometry := none
            window_z_order := none
            browser_state := none
            media_playback_position := none
            os_signature := none } }).cursor.x) := by
  constructor
  · exact snapshot_capture_gate.2.1 _ _ "m" "u" 3 (Or.inr rfl)
  · exact (snapshot_capture_gate.2.2
      { get_execution_mode := "OBSERVER", get_cursor_position := .ok (5, 7),
        get_focused_window := .ok { winId := some "w1", title := some "T" },
        get_active_application := .ok { process_name := some "gedit", pid := some 42 },
        get_window_geometry := none, get_window_z_order := none, get_browser_state := none,
        get_media_playback_position := none, get_os_signature := none }
      { available := true, blind := false, frame_ts := some 1, screen_text_hash := some "h" }
      "m" "u" 3 _ (by rfl)).2.1

/-- The outcome of a first `restore` run depends only on the cursor,
focus, activation, and execution-mode primitives (and the two
post-restore reads inside `verifyPostRestore`) — never on the
best-effort steps. -/
theorem restore_outcome (os : OSRestoreBackend) (snap : RestorationSnapshot) :
    (RestoreProvider.restore os false snap).2 =
      (match os.set_cursor_position with
       | .error _ => .error .cursorRestoreFailed
       | .ok _ =>
         match (match os.focus_window with | .ok b => b | .error _ => false) with
         | true =>
           (match os.set_execution_mode with
            | .error _ => .error .executionModeResetFailed
            | .ok _ =>
              match verifyPostRestore os snap with
              | .error e => .error e
              | .ok _ => .ok true)
         | false =>
           match os.activate_application with
           | .error _ => .error .applicationFocusFailed
           | .ok false => .error .applicationFocusFailed
           | .ok true =>
             (match os.set_execution_mode with
              | .error _ => .error .executionModeResetFailed
              | .ok _ =>
                match verifyPostRestore os snap with
                | .error e => .error e
                | .ok _ => .ok true)) := by
  unfold RestoreProvider.restore restoreTail
  dsimp only
  cases hcur : os.set_cursor_position with
  | error e => rfl
  | ok u =>
    dsimp only
    cases hf : os.focus_window with
    | error e =>
      dsimp only
      cases ha : os.activate_application with
      | error e2 => rfl
      | ok b =>
        cases b
        · rfl
        · cases os.set_execution_mode with
          | error e3 => rfl
          | ok u3 => cases verifyPostRestore os snap <;> rfl
    | ok b =>
      cases b
      · dsimp only
        cases ha : os.activate_application with
        | error e2 => rfl
        | ok b2 =>
          cases b2
          · rfl
          · cases os.set_execution_mode with
            | error e3 => rfl
            | ok u3 => cases verifyPostRestore os snap <;> rfl
      · cases os.set_execution_mode with
        | error e3 => rfl
        | ok u3 => cases verifyPostRestore os snap <;> rfl

/-- `verifyPostRestore` reads only the execution mode and the cursor. -/
theorem verifyPostRestore_congr (os1 os2 : OSRestoreBackend) (snap : RestorationSnapshot)
    (h5 : os1.get_execution_mode = os2.get_execution_mode)
    (h6 : os1.get_cursor_position = os2.get_cursor_position) :
    verifyPostRestore os1 snap = verifyPostRestore os2 snap := by
  unfold verifyPostRestore
  rw [h5, h6]

/-- C9: on a first restore call, failures of the force-release,
stop-automated-input, enable-user-input, and extended-metadata steps
never affect the outcome; a cursor-restoration failure raises; when
focusing the window fails, application activation is attempted, and
failure of both raises; and a failure forcing the mode back to Observer
raises. -/
theorem restore_failure_discipline :
    (∀ (os1 os2 : OSRestoreBackend) (completed : Bool) (snap : RestorationSnapshot),
      os1.set_cursor_position = os2.set_cursor_position →
      os1.focus_window = os2.focus_window →
      os1.activate_application = os2.activate_application →
      os1.set_execution_mode = os2.set_execution_mode →
      os1.get_execution_mode = os2.get_execution_mode →
      os1.get_cursor_position = os2.get_cursor_position →
      (RestoreProvider.restore os1 completed snap).2 =
        (RestoreProvider.restore os2 completed snap).2) ∧
    (∀ (os : OSRestoreBackend) (snap : RestorationSnapshot),
      os.set_cursor_position = .error () →
      (RestoreProvider.restore os false snap).2 = .error .cursorRestoreFailed) ∧
    (∀ (os : OSRestoreBackend) (snap : RestorationSnapshot),
      os.set_cursor_position = .ok () →
      (os.focus_window = .error () ∨ os.focus_window = .ok false) →
      "activate_application" ∈ (RestoreProvider.restore os false snap).1 ∧
      ((os.activate_application = .error () ∨ os.activate_application = .ok false) →
        (RestoreProvider.restore os false snap).2 = .error .applicationFocusFailed)) ∧
    (∀ (os : OSRestoreBackend) (snap : RestorationSnapshot),
      os.set_cursor_position = .ok () →
      (os.focus_window = .ok true ∨ os.activate_application = .ok true) →
      os.set_execution_mode = .error () →
      (RestoreProvider.restore os false snap).2 = .error .executionModeResetFailed) := by
  refine ⟨?_, ?_, ?_, ?_⟩
  · intro os1 os2 completed snap h1 h2 h3 h4 h5 h6
    cases completed
    · rw [restore_outcome, restore_outcome, h1, h2, h3, h4,
        verifyPostRestore_congr os1 os2 snap h5 h6]
    · rfl
  · intro os snap hcur
    rw [restore_outcome, hcur]
  · intro os snap hcur hfoc
    constructor
    · unfold RestoreProvider.restore
      dsimp only
      rw [hcur]
      dsimp only
      rcases hfoc with hf | hf <;> rw [hf] <;> dsimp only <;>
        cases ha : os.activate_application with
        | error e2 => simp
        | ok b2 =>
          cases b2
          · simp
          · unfold restoreTail
            cases os.set_execution_mode with
            | error e3 => simp
            | ok u3 =>
              dsimp only
              cases verifyPostRestore os snap <;> simp
    · intro hact
      rw [restore_outcome, hcur]
      dsimp only
      rcases hfoc with hf | hf <;> rw [hf] <;> dsimp only <;>
        rcases hact with ha | ha <;> rw [ha]
  · intro os snap hcur hsucc hmode
    rw [restore_outcome, hcur]
    dsimp only
    rcases hsucc with hf | ha
    · rw [hf]
      dsimp only
      rw [hmode]
    · cases hf : os.focus_window with
      | error e =>
        rw [ha]
        dsimp only
        rw [hmode]
      | ok b =>
        cases b
        · rw [ha]
          dsimp only
          rw [hmode]
        · rw [hmode]

/-- Witness for C9: a concrete backend whose focus call raises but whose
activation succeeds completes the restore path up to a failing
execution-mode reset, which is fatal; and a cursor failure is fatal. -/
theorem restore_failure_discipline_witness :
    (RestoreProvider.restore
      { has_force_release_all := true, force_release_all := .error (),
        stop_automated_input := .error (), enable_user_input := .error (),
        set_window_geometry := none, set_window_z_order := none,
        restore_browser_state := none, set_media_playback_position := none,
        set_cursor_position := .error (), focus_window := .ok true,
        activate_application := .ok true, set_execution_mode := .ok (),
        get_execution_mode := "OBSERVER", get_cursor_position := .ok (0, 0),
        has_get_focused_window := false, get_focused_window := .ok none }
      false
      { snapshot_id := "s", captured_at := 1, cursor := { x := 0, y := 0 },
        focus := { window_id := "w", title := none },
        application := { process_name := "p", pid := none },
        execution_mode := "OBSERVER",
        metadata := {
          schema_version := "1.1"
          snapshot_id := "m"
          frame_ts := none
          screen_text_hash := none
          screenpipe_captured_at := 0
          window_geometry := none
          window_z_order := none
          browser_state := none
          media_playback_position := none
          os_signature := none } }).2 = .error .cursorRestoreFailed ∧
    (RestoreProvider.restore
      { has_force_release_all := false, force_release_all := .ok (),
        stop_automated_input := .ok (), enable_user_input := .ok (),
        set_window_geometry := none, set_window_z_order := none,
        restore_browser_state := none, set_media_playback_position := none,
        set_cursor_position := .ok (), focus_window := .error (),
        activate_application := .ok true, set_execution_mode := .error (),
        get_execution_mode := "OBSERVER", get_cursor_position := .ok (0, 0),
        has_get_focused_window := false, get_focused_window := .ok none }
      false
      { snapshot_id := "s", captured_at := 1, cursor := { x := 0, y := 0 },
        focus := { window_id := "w", title := none },
        application := { process_name := "p", pid := none },
        execution_mode := "OBSERVER",
        metadata := {
          schema_version := "1.1"
          snapshot_id := "m"
          frame_ts := none
          screen_text_hash := none
          screenpipe_captured_at := 0
          window_geometry := none
          window_z_order := none
          browser_state := none
          media_playback_position := none
          os_signature := none } }).2 = .error .executionModeResetFailed := by
  constructor
  · exact restore_failure_discipline.2.1 _ _ rfl
  · exact restore_failure_discipline.2.2.2 _ _ rfl (Or.inr rfl) rfl

end ProjectZeo
